import Mathlib

/-!
# kexecboot: boot orchestration core

A shallow embedding of `src/kexecboot.c` (with the data declarations of
`src/devicescan.h`) and the properties of its menu builder, boot executor,
catalog builder and menu-context handler.

Conventions of the embedding

* C strings are `String`; a `char *` that the code tests against `NULL` is an
  `Option String`.
* `int` values are `Int`; sizes and `unsigned` counters are `Nat`.
* A pointer to a menu level is a `level_ref`, `none` standing for `NULL`.
* Calls that leave the program (mount, open, ioctl, fopen, system, execve,
  malloc) take their outcome from an explicit record of outcomes and are
  recorded in a trace, so that every combination of outcomes can be
  quantified over.
* `log_msg` and `DPRINTF` lines have no effect on the state and are left out.
-/

namespace Kexecboot

/-! ## Constants of the headers that are not part of the sources -/

/-- Modelled from the spec: the macros and enumeration constants that
`kexecboot.c` takes from `config.h`, `menu.h`, `cfgparser.h` and
`kexecboot.h`, none of which is among the sources. They are kept abstract:
every property below holds for all values (the case labels of a `switch`
being pairwise distinct is stated where it is needed). `initmode` is the
global flag set once by `do_init`. -/
structure kx_consts where
  MOUNTPOINT : String
  ROOTFS : String
  KEXEC_PATH : String
  MMCBLK_BOOTCONF : String
  MMCBLK_BOOTCONF_FSTYPE : String
  BOOTCONF_PATH : String
  BOOT_TYPE_LINUX : Nat
  BOOT_TYPE_IMAGE : Nat
  BOOT_TYPE_KEXEC : Nat
  A_ERROR : Int
  A_EXIT : Int
  A_NONE : Int
  A_UP : Int
  A_DOWN : Int
  A_SELECT : Int
  A_SUBMENU : Int
  A_PARENTMENU : Int
  A_REBOOT : Int
  A_SHUTDOWN : Int
  A_RESCAN : Int
  A_DEBUG : Int
  A_TIMEOUT : Int
  A_KEY0 : Int
  A_KEY9 : Int
  A_DEVICES : Int
  USE_TIMEOUT : Bool
  USE_NUMKEYS : Bool
  USE_HOST_DEBUG : Bool
  initmode : Bool
  deriving Inhabited

/-! ## Data model (`devicescan.h`) -/

/-- Device type tag, `enum dtype_t`. -/
inductive dtype_t where
  | DVT_UNKNOWN
  | DVT_STORAGE
  | DVT_MMC
  | DVT_MTD
  deriving DecidableEq, Inhabited

/-- Boot item, `struct boot_item_t`. The icon pointer is left out: it only
drives what is drawn. -/
structure boot_item_t where
  device : String
  fstype : String
  blocks : Nat
  label : Option String
  kernelpath : String
  cmdline : Option String
  initrd : Option String
  directory : String
  image : String
  imagepath : String
  boottype : Nat
  priority : Int
  dtype : dtype_t
  deriving DecidableEq, Inhabited

/-- Boot configuration, `struct bootconf_t`. `list` holds the `fill` filled
slots of the C array in order, so `fill` is its length; `size` is the
allocated capacity. -/
structure bootconf_t where
  timeout : Int
  default_item : Option Nat
  debug : Int
  list : List boot_item_t
  size : Nat
  deriving DecidableEq, Inhabited

/-- Filled items count, the field `fill`. -/
def bootconf_t.fill (bl : bootconf_t) : Nat := bl.list.length

/-! ## Menu (`menu.h`, not part of the sources) -/

/-- Modelled from the spec: a pointer to one of the two fixed menu levels
(`menu.h` is not part of the sources). -/
inductive level_ref where
  | top
  | sys
  deriving DecidableEq, Inhabited

/-- Modelled from the spec: a menu item of the absent `menu.h`, with the
fields `kexecboot.c` reads and writes: action id, label, description and
submenu pointer. -/
structure kx_menu_item where
  id : Int
  label : String
  description : Option String
  submenu : Option level_ref
  deriving DecidableEq, Inhabited

/-- Modelled from the spec: a menu level of the absent `menu.h`: the parent
pointer, the items (`count` is their number) and the position of the
current item (`current` is `list[current_no]`). -/
structure kx_menu_level where
  parent : Option level_ref
  list : List kx_menu_item
  current_no : Nat
  deriving DecidableEq, Inhabited

/-- Number of items of a level, the field `count`. -/
def kx_menu_level.count (ml : kx_menu_level) : Nat := ml.list.length

/-- Current item of a level, the field `current`. -/
def kx_menu_level.current (ml : kx_menu_level) : Option kx_menu_item :=
  ml.list[ml.current_no]?

/-- Modelled from the spec: the menu of the absent `menu.h`: the top level,
the system level, and the pointer to the current level. -/
structure kx_menu where
  top : kx_menu_level
  sys : kx_menu_level
  current : Option level_ref
  deriving DecidableEq, Inhabited

/-- Dereference a level pointer. -/
def kx_menu.level (m : kx_menu) : level_ref → kx_menu_level
  | level_ref.top => m.top
  | level_ref.sys => m.sys

/-- Store a level through a level pointer. -/
def kx_menu.set_level (m : kx_menu) (r : level_ref) (ml : kx_menu_level) : kx_menu :=
  match r with
  | level_ref.top => { m with top := ml }
  | level_ref.sys => { m with sys := ml }

/-- Modelled from the spec: `menu_item_add` of the absent `menu.c` appends
one item with the given id, label, description and submenu to the level. -/
def menu_item_add (ml : kx_menu_level) (id : Int) (label : String)
    (description : Option String) (submenu : Option level_ref) : kx_menu_level :=
  { ml with list := ml.list ++ [{ id := id, label := label,
                                   description := description, submenu := submenu }] }

/-- Contexts available, `kx_context`. -/
inductive kx_context where
  | KX_CTX_MENU
  | KX_CTX_TEXTVIEW
  deriving DecidableEq, Inhabited

/-- Common parameters, `struct params_t`. `bootcfg` is `none` for `NULL`. -/
structure params_t where
  bootcfg : Option bootconf_t
  menu : kx_menu
  context : kx_context
  deriving DecidableEq, Inhabited

/-! ## Menu builder: `fill_menu` -/

/-- Description of a device entry: `snprintf(desc, sizeof_desc, "%s %s %lluMb",
device, fstype, blocks/1024)` with `sizeof_desc = 160`, which keeps at most
159 characters. -/
def item_desc (tbi : boot_item_t) : String :=
  (tbi.device ++ " " ++ tbi.fstype ++ " " ++ toString (tbi.blocks / 1024) ++ "Mb").take 159

/-- Label of a device entry: the custom label if present, otherwise
`kernelpath + sizeof(MOUNTPOINT) - 1`. -/
def item_label (K : kx_consts) (tbi : boot_item_t) : String :=
  match tbi.label with
  | some l => l
  | none => tbi.kernelpath.drop K.MOUNTPOINT.length

/-- Priority of the item in slot `i` of the registry. -/
def prio (bl : bootconf_t) (i : Nat) : Int := (bl.list.getD i default).priority

/-- Body of the inner `for` loop of `fill_menu` at index `i`; the accumulator
is `(max_pri, max_i)`. -/
def search_step (bl : bootconf_t) (a : List Int) (acc : Int × Int) (i : Nat) : Int × Int :=
  if a[i]? = some 0 then
    if prio bl i > acc.1 then (prio bl i, (i : Int)) else acc
  else acc

/-- The inner loop of `fill_menu`: `max_pri = -1; for (i = 0; i < b_items; i++) ...`.
`max_i` keeps its value from the previous round. -/
def search_max (bl : bootconf_t) (b_items : Nat) (a : List Int) (max_i : Int) : Int × Int :=
  (List.range b_items).foldl (search_step bl a) (-1, max_i)

/-- The entry `fill_menu` adds for slot `max_i`. -/
def device_entry (K : kx_consts) (bl : bootconf_t) (max_i : Nat) : kx_menu_item :=
  { id := K.A_DEVICES + (max_i : Int),
    label := item_label K (bl.list.getD max_i default),
    description := some (item_desc (bl.list.getD max_i default)),
    submenu := none }

/-- The outer `for(;;)` loop of `fill_menu`. The first argument bounds the
number of rounds; `none` means the bound was reached before the `break`. -/
def fill_loop (K : kx_consts) (bl : bootconf_t) (b_items : Nat) :
    Nat → List Int → Int → kx_menu_level → Option kx_menu_level
  | 0, _, _, _ => none
  | fuel + 1, a, max_i, top =>
    let r := search_max bl b_items a max_i
    let max_pri := r.1
    let max_i := r.2
    let st : List Int × kx_menu_level :=
      if max_pri ≥ 0 then
        let tbi := bl.list.getD max_i.toNat default
        (a.set max_i.toNat 1,
          menu_item_add top (K.A_DEVICES + max_i) (item_label K tbi) (some (item_desc tbi)) none)
      else (a, top)
    if max_pri = -1 then some st.2 else fill_loop K bl b_items fuel st.1 max_i st.2

/-- Fill main menu with boot items, `fill_menu`. `desc_ok` and `a_ok` are the
outcomes of the two `malloc` calls. The result is the return code and the
parameters with the filled menu; `none` would mean that the loop did not
reach its `break` within `b_items + 1` rounds. -/
def fill_menu (K : kx_consts) (desc_ok a_ok : Bool) (params : params_t) :
    Option (Int × params_t) :=
  match params.bootcfg with
  | none => some (0, params)
  | some bl =>
    if bl.fill > 0 then
      let b_items := bl.fill
      if !desc_ok then some (-1, params)
      else if !a_ok then some (-1, params)
      else
        match fill_loop K bl b_items (b_items + 1) (List.replicate b_items 0) (-1)
            params.menu.top with
        | none => none
        | some top => some (0, { params with menu := { params.menu with top := top } })
    else some (0, params)

/-- The item `main` boots for a selected id: `start_booting(&params, rc - A_DEVICES)`
reads `params->bootcfg->list[choice]`. -/
def decode_choice (K : kx_consts) (bl : bootconf_t) (id : Int) : boot_item_t :=
  bl.list.getD (id - K.A_DEVICES).toNat default

/-- The slots below `n` that are not yet marked as processed. -/
def unprocessed (n : Nat) (a : List Int) : Finset Nat :=
  (Finset.range n).filter (fun j => a[j]? = some 0)

/-- The order in which `fill_menu` places two slots: greater priority first,
and among equal priorities the lower slot first. -/
def placed_before (bl : bootconf_t) (x y : Nat) : Prop :=
  prio bl y < prio bl x ∨ (prio bl y = prio bl x ∧ x < y)

/-- The parameters with the given items as top menu level. -/
def with_top_list (params : params_t) (l : List kx_menu_item) : params_t :=
  { params with menu := { params.menu with top := { params.menu.top with list := l } } }

/-! ## Boot executor: `start_booting` -/

/-- Calls by which `start_booting` and `scan_devices` act on the system, in
the order they are issued, each with the outcome it had. -/
inductive event where
  /-- Call `execve(path, ...)`; it only returns when it failed. -/
  | execve (path : String)
  /-- Call `mount(source, target, fstype, ...)`. -/
  | mount (source target fstype : String) (ok : Bool)
  /-- Call `umount(target)`. -/
  | umount (target : String) (ok : Bool)
  /-- Call `open64(path, O_RDWR)` or `open(path, O_RDWR)`. -/
  | open_file (path : String) (ok : Bool)
  /-- Call `close(fd)` on the descriptor obtained for `path`; `opened` tells
  whether the call that produced the descriptor had succeeded. -/
  | close (path : String) (opened : Bool)
  /-- Call `ioctl(device_fd, LOOP_SET_FD, file_fd)`, `file` being the file
  behind `file_fd`. -/
  | loop_set_fd (file : String) (ok : Bool)
  /-- Call `ioctl(device_fd, LOOP_CLR_FD, file_fd)`. -/
  | loop_clr_fd (ok : Bool)
  /-- Call `fopen("/proc/cmdline", "r")`. -/
  | fopen_cmdline (ok : Bool)
  /-- Call `system(cmd)`; `status` is `none` when control never comes back
  (the new kernel runs). -/
  | system (cmd : String) (status : Option Int)
  /-- Call `mkdir(path, 0666)`. -/
  | mkdir (path : String)
  /-- Call `parse_cfgfile(path, &cfgdata)`. -/
  | parse_cfgfile (path : String)
  deriving DecidableEq, Inhabited

/-- Outcomes of the calls `start_booting` makes, one field per call site.
`cmdline` is `none` when `fopen("/proc/cmdline")` fails and otherwise the text
that `fscanf(f, "%[^\n]", cmdline)` stores. `exec_status` is `none` when
`system("kexec -e")` starts the new kernel and otherwise its return value.
`execve_ok` tells that `execve("/init-android")` replaced the process. -/
structure boot_outcomes where
  execve_ok : Bool
  mount_aux_ok : Bool
  open_image_ok : Bool
  open_loop_ok : Bool
  loop_set_ok : Bool
  mount_loop_ok : Bool
  mount_root_ok : Bool
  unwind_umount_ok : Bool
  initrd_malloc_ok : Bool
  cmdline : Option String
  cmdline_malloc_ok : Bool
  load_status : Int
  umount_root_ok : Bool
  reopen_image_ok : Bool
  reopen_loop_ok : Bool
  loop_clr_ok : Bool
  umount_aux_ok : Bool
  exec_status : Option Int
  deriving DecidableEq, Inhabited

/-- Test of a boot type bit, `item->boottype & MASK`. -/
def has_flag (boottype mask : Nat) : Bool := (boottype &&& mask) != 0

/-- How `sprintf` and `log_msg` print a `%s` argument: a `NULL` pointer comes
out as `(null)`, as the C library of the target does. -/
def fmt_s : Option String → String
  | some s => s
  | none => "(null)"

/-- The mounting part of `start_booting` (the `if (item->boottype &
BOOT_TYPE_IMAGE) ... else ...` statement). The first component is `some rc`
when the function returns `rc` from inside this part. -/
def mount_stage (K : kx_consts) (O : boot_outcomes) (item : boot_item_t) :
    Option Int × List event :=
  if has_flag item.boottype K.BOOT_TYPE_IMAGE then
    if !O.mount_aux_ok then
      (some (-1), [event.mount item.device K.MOUNTPOINT item.fstype false])
    else if !O.open_image_ok then
      (some (-1), [event.mount item.device K.MOUNTPOINT item.fstype true,
        event.open_file item.imagepath false,
        event.umount K.MOUNTPOINT O.unwind_umount_ok])
    else if !O.open_loop_ok then
      (some (-1), [event.mount item.device K.MOUNTPOINT item.fstype true,
        event.open_file item.imagepath true,
        event.open_file "/dev/loop0" false,
        event.close item.imagepath true,
        event.umount K.MOUNTPOINT O.unwind_umount_ok])
    else if !O.loop_set_ok then
      (some (-1), [event.mount item.device K.MOUNTPOINT item.fstype true,
        event.open_file item.imagepath true,
        event.open_file "/dev/loop0" true,
        event.loop_set_fd item.imagepath false,
        event.close item.imagepath true,
        event.close "/dev/loop0" true,
        event.umount K.MOUNTPOINT O.unwind_umount_ok])
    else
      (none, [event.mount item.device K.MOUNTPOINT item.fstype true,
        event.open_file item.imagepath true,
        event.open_file "/dev/loop0" true,
        event.loop_set_fd item.imagepath true,
        event.close item.imagepath true,
        event.close "/dev/loop0" true,
        event.mount "/dev/loop0" K.ROOTFS "ext4" O.mount_loop_ok])
  else
    if !O.mount_root_ok then
      (some (-1), [event.mount item.device K.ROOTFS item.fstype false])
    else
      (none, [event.mount item.device K.ROOTFS item.fstype true])

/-- The `--initrd=` argument: built when the item has an initrd and the
allocation succeeds, otherwise `load_argv[3]` stays `NULL`. -/
def initrd_arg (O : boot_outcomes) (item : boot_item_t) : Option String :=
  match item.initrd with
  | some i => if O.initrd_malloc_ok then some ("--initrd=" ++ i) else none
  | none => none

/-- The `--command-line=` argument as the `strcpy`/`strcat` sequence builds it
from the text read from `/proc/cmdline`. -/
def cmdline_text (K : kx_consts) (item : boot_item_t) (cmdline : String) : String :=
  let s := "--command-line="
  let s := s ++ "\""
  let s := s ++ cmdline
  let s := s ++ " partition="
  let s := s ++ item.device
  let s :=
    if has_flag item.boottype K.BOOT_TYPE_IMAGE then (s ++ " image=") ++ item.image
    else (s ++ " directory=") ++ item.directory
  s ++ "\""

/-- The `--command-line=` argument: `load_argv[5]` stays `NULL` when the
allocation fails. -/
def cmdline_arg (K : kx_consts) (O : boot_outcomes) (item : boot_item_t)
    (cmdline : String) : Option String :=
  if O.cmdline_malloc_ok then some (cmdline_text K item cmdline) else none

/-- The array `load_argv` at the time of the load call. -/
def load_argv (K : kx_consts) (O : boot_outcomes) (item : boot_item_t)
    (cmdline : String) : List (Option String) :=
  [some K.KEXEC_PATH, some "--load-hardboot", some item.kernelpath, initrd_arg O item,
    some "--mem-min=0x84000000", cmdline_arg K O item cmdline]

/-- The command `sprintf(op, "%s %s %s %s %s %s", load_argv[0], ..., load_argv[5])`. -/
def load_op (argv : List (Option String)) : String :=
  " ".intercalate (argv.map fmt_s)

/-- The statements between the load call and the execute call: `umount(ROOTFS)`
and, for an image-backed item, the detaching of the loop device and
`umount(MOUNTPOINT)`. -/
def release_stage (K : kx_consts) (O : boot_outcomes) (item : boot_item_t) : List event :=
  [event.umount K.ROOTFS O.umount_root_ok] ++
  (if has_flag item.boottype K.BOOT_TYPE_IMAGE then
    [event.open_file item.imagepath O.reopen_image_ok,
      event.open_file "/dev/loop0" O.reopen_loop_ok] ++
    (if !O.reopen_loop_ok then [event.close item.imagepath O.reopen_image_ok] else []) ++
    [event.loop_clr_fd (O.reopen_loop_ok && O.loop_clr_ok)] ++
    (if !(O.reopen_loop_ok && O.loop_clr_ok) then
      [event.close item.imagepath O.reopen_image_ok,
        event.close "/dev/loop0" O.reopen_loop_ok] else []) ++
    (if O.reopen_image_ok then [event.close item.imagepath true] else []) ++
    (if O.reopen_loop_ok then [event.close "/dev/loop0" true] else []) ++
    [event.umount K.MOUNTPOINT O.umount_aux_ok]
  else [])

/-- The part of `start_booting` guarded by `item->boottype & BOOT_TYPE_KEXEC`.
The first component is `none` when control does not come back from
`system("kexec -e")`, otherwise the value returned to the caller. -/
def kexec_stage (K : kx_consts) (O : boot_outcomes) (item : boot_item_t) :
    Option Int × List event :=
  match O.cmdline with
  | none => (some (-1), [event.fopen_cmdline false])
  | some cmdline =>
    (match O.exec_status with
      | none => none
      | some _ => some (-1),
     [event.fopen_cmdline true,
       event.system (load_op (load_argv K O item cmdline)) (some O.load_status)] ++
     release_stage K O item ++
     [event.system "kexec -e" O.exec_status])

/-- Body of `start_booting` for the item `params->bootcfg->list[choice]`. The
first component is `none` when the function does not return to its caller
(the process was replaced or the new kernel runs) and `some rc` when it
returns `rc`; the second is the sequence of calls it made. -/
def boot_item (K : kx_consts) (O : boot_outcomes) (item : boot_item_t) :
    Option Int × List event :=
  let pre : List event :=
    if !has_flag item.boottype K.BOOT_TYPE_LINUX then [event.execve "/init-android"] else []
  if !has_flag item.boottype K.BOOT_TYPE_LINUX && O.execve_ok then (none, pre)
  else
    let m := mount_stage K O item
    match m.1 with
    | some rc => (some rc, pre ++ m.2)
    | none =>
      if has_flag item.boottype K.BOOT_TYPE_KEXEC then
        let k := kexec_stage K O item
        (k.1, pre ++ m.2 ++ k.2)
      else (some (-1), pre ++ m.2)

/-- The function `start_booting`: `item = params->bootcfg->list[choice]`, then
the body above. The result is `none` when the registry is `NULL` or `choice`
is not the index of a filled slot (the C code then reads outside the
registry). -/
def start_booting (K : kx_consts) (O : boot_outcomes) (params : params_t) (choice : Int) :
    Option (Option Int × List event) :=
  match params.bootcfg with
  | none => none
  | some bl =>
    if choice < 0 then none
    else
      match bl.list[choice.toNat]? with
      | none => none
      | some item => some (boot_item K O item)

/-- One mounted filesystem: what is mounted where. -/
structure mount_entry where
  source : String
  target : String
  fstype : String
  deriving DecidableEq, Inhabited

/-- The mount and loop-device state of the system: the mounted filesystems,
most recent first, and the files attached to `/dev/loop0`, most recent
first. -/
structure sys_state where
  mounts : List mount_entry
  loops : List String
  deriving DecidableEq, Inhabited

/-- Remove the most recent mount on `target`. -/
def remove_mount (target : String) : List mount_entry → List mount_entry
  | [] => []
  | m :: rest => if m.target = target then rest else m :: remove_mount target rest

/-- Effect of one call on the mount and loop-device state. A call that
failed changes nothing; a successful `mount` adds the filesystem, a
successful `umount` removes the most recent mount on the target, a
successful `LOOP_SET_FD` attaches the file and a successful `LOOP_CLR_FD`
detaches it. -/
def apply_event (w : sys_state) : event → sys_state
  | event.mount s t f true => { w with mounts := { source := s, target := t, fstype := f } :: w.mounts }
  | event.umount t true => { w with mounts := remove_mount t w.mounts }
  | event.loop_set_fd file true => { w with loops := file :: w.loops }
  | event.loop_clr_fd true => { w with loops := w.loops.tail }
  | _ => w

/-- State of the system after a sequence of calls. -/
def run_events (w : sys_state) (tr : List event) : sys_state :=
  tr.foldl apply_event w

/-- The calls that mount or unmount a filesystem, attach or detach the loop
device, or start a program. -/
def is_effect : event → Bool
  | event.execve _ => true
  | event.mount _ _ _ _ => true
  | event.umount _ _ => true
  | event.loop_set_fd _ _ => true
  | event.loop_clr_fd _ => true
  | event.system _ _ => true
  | _ => false

/-! ## Catalog builder: `scan_devices` -/

/-- Outcomes of the calls `scan_devices` makes. `dir` is `none` when
`opendir(BOOTCONF_PATH)` fails and otherwise the entries `readdir` yields, each
with its name and whether `d_type` has the directory bit. `imported` are the
items `addto_bootcfg` builds from the devices and the parsed configuration. -/
structure scan_outcomes where
  create_ok : Bool
  devscan_open_ok : Bool
  mount_ok : Bool
  dir : Option (List (String × Bool))
  umount_ok : Bool
  imported : List boot_item_t
  deriving DecidableEq, Inhabited

/-- Modelled from the spec: `create_bootcfg` of the absent `devicescan.c`
allocates a registry of the given capacity with no item, no default item and
the timeout disabled. -/
def create_bootcfg (size : Nat) : bootconf_t :=
  { timeout := 0, default_item := none, debug := 0, list := [], size := size }

/-- Modelled from the spec: `addto_bootcfg` of the absent `devicescan.c`
appends the items to the registry, the capacity growing as far as needed. -/
def addto_bootcfg (bc : bootconf_t) (items : List boot_item_t) : bootconf_t :=
  { bc with list := bc.list ++ items, size := max bc.size (bc.list.length + items.length) }

/-- The function `scan_devices`. The result is the return code, the
parameters as it leaves them, and the calls it made. -/
def scan_devices (K : kx_consts) (S : scan_outcomes) (params : params_t) :
    Int × params_t × List event :=
  match (if S.create_ok then some (create_bootcfg 4) else none) with
  | none => (-1, params, [])
  | some bootconf =>
    if !S.devscan_open_ok then (-1, params, [])
    else
      let tr0 := [event.mkdir K.MOUNTPOINT, event.mkdir K.ROOTFS]
      if !S.mount_ok then
        (0, { params with bootcfg := some bootconf },
          tr0 ++ [event.mount K.MMCBLK_BOOTCONF K.MOUNTPOINT K.MMCBLK_BOOTCONF_FSTYPE false])
      else
        let tr1 := tr0 ++ [event.mount K.MMCBLK_BOOTCONF K.MOUNTPOINT K.MMCBLK_BOOTCONF_FSTYPE true]
        let tr2 := tr1 ++
          (match S.dir with
            | some entries =>
              (entries.filter (fun e => !e.2)).map
                (fun e => event.parse_cfgfile (K.BOOTCONF_PATH ++ "/" ++ e.1))
            | none => [])
        if !S.umount_ok then
          (0, { params with bootcfg := some bootconf }, tr2 ++ [event.umount K.MOUNTPOINT false])
        else
          (0, { params with bootcfg := some (addto_bootcfg bootconf S.imported) },
            tr2 ++ [event.umount K.MOUNTPOINT true])

/-! ## Menu context -/

/-- Modelled from the spec: `menu_item_select` of the absent `menu.c` moves
the selection of the current level: direction 0 chooses the first item, a
positive direction the next item and a negative one the previous item, the
selection staying where it is at either end of the list. The result is `none`
when the current level is `NULL`. -/
def menu_item_select (menu : kx_menu) (direction : Int) : Option kx_menu :=
  match menu.current with
  | none => none
  | some r =>
    let ml := menu.level r
    let no :=
      if direction = 0 then 0
      else if direction > 0 then (if ml.current_no + 1 < ml.count then ml.current_no + 1 else ml.current_no)
      else ml.current_no - 1
    some (menu.set_level r { ml with current_no := no })

/-- Modelled from the spec: `menu_item_select_by_no` of the absent `menu.c`
selects the item at the given position of the current level and returns 0, or
returns -1 when the level has no such item. The result is `none` when the
current level is `NULL`. -/
def menu_item_select_by_no (menu : kx_menu) (no : Int) : Option (Int × kx_menu) :=
  match menu.current with
  | none => none
  | some r =>
    let ml := menu.level r
    if 0 ≤ no ∧ no.toNat < ml.count then
      some (0, menu.set_level r { ml with current_no := no.toNat })
    else some (-1, menu)

/-- Outcomes of the calls a menu action can lead to: those of a rescan
(`scan_devices` and the two allocations of `fill_menu`) and whether `reboot`
takes the machine down. -/
structure menu_env where
  scan : scan_outcomes
  desc_ok : Bool
  a_ok : Bool
  reboot_ok : Bool
  deriving DecidableEq, Inhabited

/-- The function `do_rescan`: the top level is cut back to its first item,
the registry is released, then `scan_devices` and `fill_menu` run. The result
is that of `fill_menu`. -/
def do_rescan (K : kx_consts) (E : menu_env) (params : params_t) : Option (Int × params_t) :=
  let top := params.menu.top
  let p1 : params_t :=
    { params with menu := { params.menu with top := { top with list := top.list.take 1 } } }
  let p2 : params_t := { p1 with bootcfg := none }
  let p3 := (scan_devices K E.scan p2).2.1
  fill_menu K E.desc_ok E.a_ok p3

/-- What a context handler does: it returns a code with the parameters as it
leaves them, or it reads through a `NULL` pointer, or the machine goes down
inside it. -/
inductive handler_result where
  | ret (rc : Int) (params : params_t)
  | undefined
  | halted
  deriving DecidableEq, Inhabited

/-- The id of the current item of the current level,
`menu->current->current->id`; `none` when one of the pointers is `NULL`. -/
def current_id (menu : kx_menu) : Option Int :=
  match menu.current with
  | none => none
  | some r =>
    match (menu.level r).current with
    | none => none
    | some mi => some mi.id

/-- The `switch (menu_action)` of `process_ctx_menu`, the case labels tried in
the order of the source. -/
def menu_switch (K : kx_consts) (E : menu_env) (params : params_t) (menu_action : Int) :
    handler_result :=
  let menu := params.menu
  if menu_action = K.A_UP then
    match menu_item_select menu (-1) with
    | none => handler_result.undefined
    | some m => handler_result.ret 1 { params with menu := m }
  else if menu_action = K.A_DOWN then
    match menu_item_select menu 1 with
    | none => handler_result.undefined
    | some m => handler_result.ret 1 { params with menu := m }
  else if menu_action = K.A_SUBMENU then
    match menu.current with
    | none => handler_result.undefined
    | some r =>
      match (menu.level r).current with
      | none => handler_result.undefined
      | some mi => handler_result.ret 1 { params with menu := { menu with current := mi.submenu } }
  else if menu_action = K.A_PARENTMENU then
    match menu.current with
    | none => handler_result.undefined
    | some r =>
      handler_result.ret 1 { params with menu := { menu with current := (menu.level r).parent } }
  else if menu_action = K.A_REBOOT then
    if !K.USE_HOST_DEBUG && E.reboot_ok then handler_result.halted
    else handler_result.ret 1 params
  else if menu_action = K.A_SHUTDOWN then
    if !K.USE_HOST_DEBUG && E.reboot_ok then handler_result.halted
    else handler_result.ret 1 params
  else if menu_action = K.A_RESCAN then
    match do_rescan K E params with
    | none => handler_result.undefined
    | some (rc, p) => if rc = -1 then handler_result.ret (-1) p else handler_result.ret 1 p
  else if menu_action = K.A_DEBUG then
    handler_result.ret 1 { params with context := kx_context.KX_CTX_TEXTVIEW }
  else if menu_action = K.A_EXIT then
    if K.initmode then handler_result.ret 1 params else handler_result.ret (-1) params
  else if menu_action = K.A_ERROR then
    handler_result.ret (-1) params
  else if K.USE_TIMEOUT && decide (menu_action = K.A_TIMEOUT) then
    match menu.current with
    | none => handler_result.undefined
    | some r =>
      if (menu.level r).count > 1 then
        match menu_item_select menu 0 with
        | none => handler_result.undefined
        | some m0 =>
          match menu_item_select m0 1 with
          | none => handler_result.undefined
          | some m1 => handler_result.ret 0 { params with menu := m1 }
      else handler_result.ret 1 params
  else
    if menu_action ≥ K.A_DEVICES then handler_result.ret 0 params
    else handler_result.ret 1 params

/-- The function `process_ctx_menu`: 0 to select, a negative code to raise an
error, a positive one to continue. -/
def process_ctx_menu (K : kx_consts) (E : menu_env) (params : params_t) (action : Int) :
    handler_result :=
  if K.USE_NUMKEYS && decide (action ≥ K.A_KEY0) && decide (action ≤ K.A_KEY9) then
    match menu_item_select_by_no params.menu (action - K.A_KEY0) with
    | none => handler_result.undefined
    | some (rc, m) =>
      if rc = -1 then handler_result.ret 1 { params with menu := m }
      else
        match current_id m with
        | none => handler_result.undefined
        | some id => menu_switch K E { params with menu := m } id
  else if K.A_SELECT = action then
    match current_id params.menu with
    | none => handler_result.undefined
    | some id => menu_switch K E params id
  else menu_switch K E params action

/-- The part of the global log that the text view moves in: the line shown
first and the number of lines. -/
structure log_t where
  current_line_no : Nat
  rows_fill : Nat
  deriving DecidableEq, Inhabited

/-- The function `process_ctx_textview`, with the log `lg` passed along. -/
def process_ctx_textview (K : kx_consts) (params : params_t) (lg : log_t) (action : Int) :
    Int × params_t × log_t :=
  if action = K.A_UP then
    (1, params, if lg.current_line_no > 0 then { lg with current_line_no := lg.current_line_no - 1 } else lg)
  else if action = K.A_DOWN then
    (1, params, if lg.current_line_no + 1 < lg.rows_fill
      then { lg with current_line_no := lg.current_line_no + 1 } else lg)
  else if action = K.A_SELECT then
    (1, { params with context := kx_context.KX_CTX_MENU }, { lg with current_line_no := 0 })
  else if action = K.A_EXIT then
    if K.initmode then (1, params, lg) else (-1, params, lg)
  else if action = K.A_ERROR then (-1, params, lg)
  else (1, params, lg)

/-- What the main loop does that can be seen from outside: it hands an action
to the handler of a context, or draws a context. -/
inductive loop_event where
  | dispatch (ctx : kx_context) (action : Int)
  | draw (ctx : kx_context)
  deriving DecidableEq, Inhabited

/-- How the main loop ends: it returns a code, or it reads through a `NULL`
pointer, or the machine goes down, or it waits for an action that does not
come. -/
inductive loop_result where
  | returned (rc : Int)
  | undefined
  | halted
  | waiting
  deriving DecidableEq, Inhabited

/-- The `do ... while (rc > 0)` loop of `do_main_loop` followed by its last two
statements, run on the actions `inputs_process` delivers, each with the
outcomes of the calls it leads to. -/
def main_loop (K : kx_consts) :
    List (Int × menu_env) → params_t → log_t → List loop_event →
      loop_result × params_t × log_t × List loop_event
  | [], params, lg, tr => (loop_result.waiting, params, lg, tr)
  | (action, E) :: rest, params, lg, tr =>
    if action ≠ K.A_NONE then
      let ctx := params.context
      let tr1 := tr ++ [loop_event.dispatch ctx action]
      let r : handler_result × log_t :=
        match ctx with
        | kx_context.KX_CTX_MENU => (process_ctx_menu K E params action, lg)
        | kx_context.KX_CTX_TEXTVIEW =>
          let t := process_ctx_textview K params lg action
          (handler_result.ret t.1 t.2.1, t.2.2)
      match r.1 with
      | handler_result.undefined => (loop_result.undefined, params, r.2, tr1)
      | handler_result.halted => (loop_result.halted, params, r.2, tr1)
      | handler_result.ret rc p =>
        if rc > 0 then main_loop K rest p r.2 (tr1 ++ [loop_event.draw p.context])
        else if rc = 0 then
          match current_id p.menu with
          | none => (loop_result.undefined, p, r.2, tr1)
          | some id => (loop_result.returned id, p, r.2, tr1)
        else (loop_result.returned rc, p, r.2, tr1)
    else main_loop K rest params lg tr

/-- The function `do_main_loop`: start with the menu context, draw it, then
run the loop. -/
def do_main_loop (K : kx_consts) (inputs : List (Int × menu_env)) (params : params_t)
    (lg : log_t) : loop_result × params_t × log_t × List loop_event :=
  main_loop K inputs { params with context := kx_context.KX_CTX_MENU } lg
    [loop_event.draw kx_context.KX_CTX_MENU]

/-! ## Menu construction and rescan -/

/-- The function `build_menu`. `menu_ok` and `sys_ok` are the outcomes of
`menu_create` and of the `menu_level_create` call for the system level.
Modelled from the spec: `menu_create` and `menu_level_create` of the absent
`menu.c` give a menu without current level and an empty level with the given
parent. The result is `none` when the function returns `NULL`. -/
def build_menu (K : kx_consts) (menu_ok sys_ok : Bool) : Option kx_menu :=
  if !menu_ok then none
  else
    let top : kx_menu_level := { parent := none, list := [], current_no := 0 }
    let ml : kx_menu_level := { parent := some level_ref.top, list := [], current_no := 0 }
    if !sys_ok then some { top := top, sys := ml, current := none }
    else
      let top := menu_item_add top K.A_SUBMENU "System menu" none (some level_ref.sys)
      let ml := menu_item_add ml K.A_PARENTMENU "Back" none none
      let ml := menu_item_add ml K.A_RESCAN "Rescan" none none
      let ml := menu_item_add ml K.A_DEBUG "Show debug info" none none
      let ml := menu_item_add ml K.A_REBOOT "Reboot" none none
      let ml := menu_item_add ml K.A_SHUTDOWN "Shutdown" none none
      let ml := if !K.initmode then menu_item_add ml K.A_EXIT "Exit" none none else ml
      menu_item_select { top := top, sys := ml, current := some level_ref.top } 0

/-- The menu items that the first loop of `do_rescan` frees: those at the
positions `1 .. count-1` of the top level. -/
def rescan_freed (params : params_t) : List kx_menu_item :=
  params.menu.top.list.drop 1

/-- The parameters at the point where `do_rescan` calls `scan_devices`: the
top level cut back to its first item and the registry pointer `NULL`. -/
def rescan_cleared (params : params_t) : params_t :=
  { bootcfg := none,
    menu := { params.menu with
      top := { params.menu.top with list := params.menu.top.list.take 1 } },
    context := params.context }

/-! ## Definitions for the main loop -/

/-- The handler call of one round of `do_main_loop`: the `switch
(params->context)` that hands the action to `process_ctx_menu` or to
`process_ctx_textview`. -/
def handle (K : kx_consts) (E : menu_env) (params : params_t) (lg : log_t) (action : Int) :
    handler_result × log_t :=
  match params.context with
  | kx_context.KX_CTX_MENU => (process_ctx_menu K E params action, lg)
  | kx_context.KX_CTX_TEXTVIEW =>
    (handler_result.ret (process_ctx_textview K params lg action).1
        (process_ctx_textview K params lg action).2.1,
      (process_ctx_textview K params lg action).2.2)

/-- The actions handed to a handler, in the order of the trace. -/
def dispatched : List loop_event → List Int
  | [] => []
  | loop_event.dispatch _ a :: rest => a :: dispatched rest
  | loop_event.draw _ :: rest => dispatched rest

/-- The shape of the trace of the loop after the first drawing, `ctx` being
the active context at its start: every action is handed to the handler of
the active context; every such call but a last one on which the loop stops is
followed by exactly one drawing, of the context that is active after the
call; the call on which the loop stops is followed by nothing. `stopped`
tells whether the loop has stopped. -/
def rounds_ok : kx_context → Bool → List loop_event → Bool
  | _, stopped, [] => !stopped
  | ctx, stopped, [loop_event.dispatch c _] => stopped && decide (c = ctx)
  | ctx, stopped, loop_event.dispatch c _ :: loop_event.draw c2 :: rest =>
    decide (c = ctx) && rounds_ok c2 stopped rest
  | _, _, _ => false

/-- Every item of the menu has an action id that is not negative. -/
def ids_nonneg (m : kx_menu) : Prop :=
  (∀ e, e ∈ m.top.list → 0 ≤ e.id) ∧ (∀ e, e ∈ m.sys.list → 0 ≤ e.id)

/-! ## Buffer sizes of `start_booting` -/

/-- Size `n` that `start_booting` computes for the buffer of the `--initrd=`
argument: `sizeof(str_initrd_start) + strlen(item->initrd)`, where `sizeof` of
the array `str_initrd_start` counts its terminator. -/
def initrd_size (initrd : String) : Nat :=
  ("--initrd=".length + 1) + initrd.length

/-- Size `n` that `start_booting` computes for the buffer of the
`--command-line=` argument, with `strlen` for every part. -/
def cmdline_size (K : kx_consts) (item : boot_item_t) (cmdline : String) : Nat :=
  if has_flag item.boottype K.BOOT_TYPE_IMAGE then
    "--command-line=".length + 2 + cmdline.length * 2 + " partition=".length
      + item.device.length + " image=".length + item.image.length
  else
    "--command-line=".length + 2 + cmdline.length * 2 + " partition=".length
      + item.device.length + " directory=".length + item.directory.length

/-! ## Sample data -/

/-- A sample choice of the constants of the absent headers. -/
def sample_consts : kx_consts :=
  { MOUNTPOINT := "/mnt", ROOTFS := "/newroot", KEXEC_PATH := "/usr/sbin/kexec",
    MMCBLK_BOOTCONF := "/dev/mmcblk0p9", MMCBLK_BOOTCONF_FSTYPE := "ext4",
    BOOTCONF_PATH := "/mnt/bootconf",
    BOOT_TYPE_LINUX := 1, BOOT_TYPE_IMAGE := 2, BOOT_TYPE_KEXEC := 4,
    A_ERROR := -1, A_EXIT := 0, A_NONE := 1, A_UP := 9, A_DOWN := 10, A_SELECT := 8,
    A_SUBMENU := 3, A_PARENTMENU := 2, A_REBOOT := 4, A_SHUTDOWN := 5, A_RESCAN := 6,
    A_DEBUG := 7, A_TIMEOUT := 11, A_KEY0 := 12, A_KEY9 := 21, A_DEVICES := 100,
    USE_TIMEOUT := true, USE_NUMKEYS := false, USE_HOST_DEBUG := false, initmode := true }

/-- A sample boot item on the given device with the given boot type and
priority. -/
def sample_item (device : String) (boottype : Nat) (priority : Int) : boot_item_t :=
  { device := device, fstype := "ext4", blocks := 4194304, label := none,
    kernelpath := "/mnt/boot/zImage", cmdline := none, initrd := none,
    directory := "/boot", image := "system.img", imagepath := "/mnt/system.img",
    boottype := boottype, priority := priority, dtype := dtype_t.DVT_MMC }

/-- A registry holding the given items. -/
def sample_bootcfg (items : List boot_item_t) : bootconf_t :=
  { timeout := 0, default_item := none, debug := 0, list := items, size := 4 }

/-- The menu as `build_menu` leaves it when the program runs as init: the
System entry on the top level, and the system level with its five entries. -/
def sample_menu : kx_menu :=
  { top := { parent := none, current_no := 0,
             list := [{ id := sample_consts.A_SUBMENU, label := "System menu",
                        description := none, submenu := some level_ref.sys }] },
    sys := { parent := some level_ref.top, current_no := 0,
             list := [{ id := sample_consts.A_PARENTMENU, label := "Back",
                        description := none, submenu := none },
                      { id := sample_consts.A_RESCAN, label := "Rescan",
                        description := none, submenu := none },
                      { id := sample_consts.A_DEBUG, label := "Show debug info",
                        description := none, submenu := none },
                      { id := sample_consts.A_REBOOT, label := "Reboot",
                        description := none, submenu := none },
                      { id := sample_consts.A_SHUTDOWN, label := "Shutdown",
                        description := none, submenu := none }] },
    current := some level_ref.top }

/-- Parameters with the sample menu and a registry of the given items. -/
def sample_params (items : List boot_item_t) : params_t :=
  { bootcfg := some (sample_bootcfg items), menu := sample_menu,
    context := kx_context.KX_CTX_MENU }

/-- Three items with the priorities 1, 7 and 3. -/
def items_distinct : List boot_item_t :=
  [sample_item "/dev/mmcblk0p1" 5 1, sample_item "/dev/mmcblk0p2" 5 7,
    sample_item "/dev/mmcblk0p3" 5 3]

/-- Three items, the first and the last with the greatest priority 7. -/
def items_tie : List boot_item_t :=
  [sample_item "/dev/mmcblk0p1" 5 7, sample_item "/dev/mmcblk0p2" 5 2,
    sample_item "/dev/mmcblk0p3" 5 7]

/-- Two items of equal priority -1. -/
def items_tie_negative : List boot_item_t :=
  [sample_item "/dev/mmcblk0p1" 5 (-1), sample_item "/dev/mmcblk0p2" 5 (-1)]

/-- Two items, the first of priority -5 and the second of priority 3. -/
def items_one_negative : List boot_item_t :=
  [sample_item "/dev/mmcblk0p1" 5 (-5), sample_item "/dev/mmcblk0p2" 5 3]

/-! ## Definitions used in the statements -/

/-- The command line in the words of the specification: the active command
line, then the `partition=` token with the device, then the `image=` token
with the image name (image-backed) or the `directory=` token with the boot
directory, the whole wrapped in double quotes. -/
def spec_cmdline (K : kx_consts) (item : boot_item_t) (active : String) : String :=
  "\"" ++ (active ++ (" partition=" ++ item.device) ++
    (if has_flag item.boottype K.BOOT_TYPE_IMAGE then " image=" ++ item.image
     else " directory=" ++ item.directory)) ++ "\""

/-- The `execve` call made first for an item that is not of the Linux type. -/
def execve_effects (K : kx_consts) (item : boot_item_t) : List event :=
  if !has_flag item.boottype K.BOOT_TYPE_LINUX then [event.execve "/init-android"] else []

/-- Outcomes in which every call succeeds and both `kexec` runs return 0. -/
def all_ok (cmdline : String) : boot_outcomes :=
  { execve_ok := false, mount_aux_ok := true, open_image_ok := true, open_loop_ok := true,
    loop_set_ok := true, mount_loop_ok := true, mount_root_ok := true,
    unwind_umount_ok := true, initrd_malloc_ok := true, cmdline := some cmdline,
    cmdline_malloc_ok := true, load_status := 0, umount_root_ok := true,
    reopen_image_ok := true, reopen_loop_ok := true, loop_clr_ok := true,
    umount_aux_ok := true, exec_status := some 0 }

/-- The state in which nothing is mounted and no file is attached. -/
def empty_state : sys_state := { mounts := [], loops := [] }

/-- Outcomes in which every call succeeds except that `/proc/cmdline` cannot
be opened. -/
def no_cmdline : boot_outcomes :=
  { all_ok "" with cmdline := none }

/-- Outcomes in which every call succeeds except the `LOOP_SET_FD` request. -/
def loop_set_fails : boot_outcomes :=
  { all_ok "console=ttyS0" with loop_set_ok := false }

/-- Outcomes in which every call succeeds except the mount of the loop
device on the root mount point, whose result the code does not check. -/
def loop_mount_fails : boot_outcomes :=
  { all_ok "console=ttyS0" with mount_loop_ok := false }

/-- Outcomes in which every call succeeds except the opening of `/dev/loop0`
in the mounting part. -/
def open_loop_fails : boot_outcomes :=
  { all_ok "console=ttyS0" with open_loop_ok := false }

/-- A state in which another filesystem is mounted on the root mount point
of the sample constants. -/
def root_busy_state : sys_state :=
  { mounts := [{ source := "/dev/mmcblk0p5", target := "/newroot", fstype := "ext4" }],
    loops := [] }

/-- The action constants that are case labels or are compared with an action
in `process_ctx_menu` and `do_main_loop`. -/
def action_labels (K : kx_consts) : List Int :=
  [K.A_ERROR, K.A_EXIT, K.A_NONE, K.A_UP, K.A_DOWN, K.A_SELECT, K.A_SUBMENU, K.A_PARENTMENU,
    K.A_REBOOT, K.A_SHUTDOWN, K.A_RESCAN, K.A_DEBUG, K.A_TIMEOUT]

/-- The action constants are those of an enumeration: pairwise distinct, and
none of them among the digit keys `A_KEY0 .. A_KEY9`. -/
def enum_ok (K : kx_consts) : Prop :=
  (action_labels K).Nodup ∧ ∀ a, a ∈ action_labels K → a < K.A_KEY0 ∨ K.A_KEY9 < a

/-- Whether the action constants are those of an enumeration can be computed. -/
instance enum_ok_decidable (K : kx_consts) : Decidable (enum_ok K) := by
  unfold enum_ok
  exact inferInstance

/-- Outcomes of a scan in which the device enumerator cannot be opened. -/
def open_fails : scan_outcomes :=
  { create_ok := true, devscan_open_ok := false, mount_ok := true, dir := none,
    umount_ok := true, imported := [] }

/-- Outcomes of a scan in which the configuration partition cannot be
mounted. -/
def mount_fails : scan_outcomes :=
  { create_ok := true, devscan_open_ok := true, mount_ok := false, dir := none,
    umount_ok := true, imported := [] }

/-- The parameters as `main` has them when it calls `scan_devices`: the menu
built and the registry pointer `NULL`. -/
def params_before_scan : params_t :=
  { bootcfg := none, menu := sample_menu, context := kx_context.KX_CTX_MENU }

/-- Outcomes for a menu action in which the scan finds nothing to import. -/
def sample_env : menu_env :=
  { scan := { create_ok := true, devscan_open_ok := true, mount_ok := true, dir := some [],
              umount_ok := true, imported := [] },
    desc_ok := true, a_ok := true, reboot_ok := false }

/-- Parameters with an empty registry and the sample menu, the system level
being the current one. -/
def params_in_sys : params_t :=
  { bootcfg := some (sample_bootcfg []),
    menu := { sample_menu with current := some level_ref.sys },
    context := kx_context.KX_CTX_MENU }

/-- Parameters with one boot item and the sample menu after `fill_menu`: the
System entry and the entry of the item on the top level, which is the
current one. -/
def params_one_device : params_t :=
  with_top_list (sample_params [sample_item "/dev/mmcblk0p1" 5 0])
    (sample_menu.top.list ++
      [device_entry sample_consts (sample_bootcfg [sample_item "/dev/mmcblk0p1" 5 0]) 0])

/-- Parameters with the registry of two items of priorities -5 and 3 and the
menu as `fill_menu` leaves it for them: the System entry and the entry of
slot 1. -/
def params_one_of_two : params_t :=
  with_top_list (sample_params items_one_negative)
    (sample_menu.top.list ++
      [device_entry sample_consts (sample_bootcfg items_one_negative) 1])

/-- Outcomes for a rescan in which the scan imports one boot item. -/
def rescan_env : menu_env :=
  { scan := { create_ok := true, devscan_open_ok := true, mount_ok := true, dir := some [],
              umount_ok := true, imported := [sample_item "/dev/mmcblk0p2" 5 4] },
    desc_ok := true, a_ok := true, reboot_ok := false }

/-! # Theorems -/

/-! ## Properties of the menu builder -/

/-- What the inner loop of `fill_menu` returns: either nothing was found
(`max_pri` is still `-1`, `max_i` is untouched and every unprocessed item has a
negative priority), or `max_i` is the first unprocessed slot of greatest
priority. -/
theorem search_max_spec (bl : bootconf_t) (n : Nat) (a : List Int) (mi0 : Int) :
    ((search_max bl n a mi0).1 = -1 ∧ (search_max bl n a mi0).2 = mi0 ∧
        ∀ j, j < n → a[j]? = some 0 → prio bl j ≤ -1) ∨
    (0 ≤ (search_max bl n a mi0).1 ∧ ∃ m : Nat, (search_max bl n a mi0).2 = (m : Int) ∧
        m < n ∧ a[m]? = some 0 ∧ prio bl m = (search_max bl n a mi0).1 ∧
        (∀ j, j < n → a[j]? = some 0 → prio bl j ≤ (search_max bl n a mi0).1) ∧
        (∀ j, j < m → a[j]? = some 0 → prio bl j < (search_max bl n a mi0).1)) := by
  induction n with
  | zero =>
    left
    simp [search_max]
  | succ k ih =>
    have hstep : search_max bl (k + 1) a mi0 = search_step bl a (search_max bl k a mi0) k := by
      simp [search_max, List.range_succ, List.foldl_append]
    rw [hstep]
    generalize search_max bl k a mi0 = r at ih
    obtain ⟨mp, mi⟩ := r
    simp only at ih
    unfold search_step
    by_cases hk : a[k]? = some 0
    · simp only [hk, if_true]
      by_cases hgt : prio bl k > mp
      · simp only [hgt, if_true]
        right
        refine ⟨?_, k, rfl, Nat.lt_succ_self k, hk, rfl, ?_, ?_⟩
        · rcases ih with ⟨h1, _, _⟩ | ⟨h1, _⟩ <;> omega
        · intro j hj hz
          rcases Nat.lt_succ_iff_lt_or_eq.mp hj with hlt | heq
          · rcases ih with ⟨h1, _, h3⟩ | ⟨_, m, _, _, _, _, h5, _⟩
            · have := h3 j hlt hz
              omega
            · have := h5 j hlt hz
              omega
          · subst heq
            exact le_refl _
        · intro j hj hz
          rcases ih with ⟨h1, _, h3⟩ | ⟨_, m, _, _, _, _, h5, _⟩
          · have := h3 j hj hz
            omega
          · have := h5 j hj hz
            omega
      · simp only [hgt, if_false]
        rcases ih with ⟨h1, h2, h3⟩ | ⟨h0, m, hm1, hm2, hm3, hm4, hm5, hm6⟩
        · left
          refine ⟨h1, h2, ?_⟩
          intro j hj hz
          rcases Nat.lt_succ_iff_lt_or_eq.mp hj with hlt | heq
          · exact h3 j hlt hz
          · subst heq
            omega
        · right
          refine ⟨h0, m, hm1, Nat.lt_succ_of_lt hm2, hm3, hm4, ?_, hm6⟩
          intro j hj hz
          rcases Nat.lt_succ_iff_lt_or_eq.mp hj with hlt | heq
          · exact hm5 j hlt hz
          · subst heq
            omega
    · simp only [hk, if_false]
      rcases ih with ⟨h1, h2, h3⟩ | ⟨h0, m, hm1, hm2, hm3, hm4, hm5, hm6⟩
      · left
        refine ⟨h1, h2, ?_⟩
        intro j hj hz
        rcases Nat.lt_succ_iff_lt_or_eq.mp hj with hlt | heq
        · exact h3 j hlt hz
        · subst heq
          exact absurd hz hk
      · right
        refine ⟨h0, m, hm1, Nat.lt_succ_of_lt hm2, hm3, hm4, ?_, hm6⟩
        intro j hj hz
        rcases Nat.lt_succ_iff_lt_or_eq.mp hj with hlt | heq
        · exact hm5 j hlt hz
        · subst heq
          exact absurd hz hk

/-- Marking a slot leaves the other markers alone and makes the slot processed. -/
theorem marked_iff (a : List Int) (m j : Nat) :
    (a.set m 1)[j]? = some 0 ↔ (j ≠ m ∧ a[j]? = some 0) := by
  rw [List.getElem?_set]
  by_cases h : m = j
  · subst h
    by_cases hl : m < a.length <;> simp [hl]
  · have h2 : j ≠ m := fun e => h e.symm
    simp [h, h2]

/-- Marking an unprocessed slot makes the set of unprocessed slots smaller. -/
theorem unprocessed_set_card (n : Nat) (a : List Int) (m : Nat) (hm : m < n)
    (hz : a[m]? = some 0) :
    (unprocessed n (a.set m 1)).card < (unprocessed n a).card := by
  apply Finset.card_lt_card
  rw [Finset.ssubset_iff_of_subset]
  · refine ⟨m, ?_, ?_⟩
    · simp [unprocessed, hm, hz]
    · simp [unprocessed, marked_iff]
  · intro j hj
    simp only [unprocessed, Finset.mem_filter, Finset.mem_range, marked_iff] at hj ⊢
    exact ⟨hj.1, hj.2.2⟩

/-- The outer loop of `fill_menu`, given enough rounds, ends at its `break`
and appends the entries of exactly the unprocessed slots of non-negative
priority, in the order `placed_before`. -/
theorem fill_loop_spec (K : kx_consts) (bl : bootconf_t) (n : Nat) :
    ∀ (fuel : Nat) (a : List Int) (mi : Int) (top : kx_menu_level),
      (unprocessed n a).card < fuel →
      ∃ idxs : List Nat,
        fill_loop K bl n fuel a mi top
          = some { top with list := top.list ++ idxs.map (device_entry K bl) } ∧
        (∀ i, i ∈ idxs → i < n ∧ a[i]? = some 0 ∧ 0 ≤ prio bl i) ∧
        (∀ j, j < n → a[j]? = some 0 → 0 ≤ prio bl j → j ∈ idxs) ∧
        idxs.Pairwise (placed_before bl) := by
  intro fuel
  induction fuel with
  | zero =>
    intro a mi top h
    exact absurd h (Nat.not_lt_zero _)
  | succ f ih =>
    intro a mi top hcard
    rcases search_max_spec bl n a mi with ⟨h1, _, h3⟩ | ⟨h0, m, hm1, hm2, hm3, hm4, hm5, hm6⟩
    · refine ⟨[], ?_, ?_, ?_, List.Pairwise.nil⟩
      · simp [fill_loop, h1]
      · intro i hi
        exact absurd hi (List.not_mem_nil i)
      · intro j hj hz hp
        have := h3 j hj hz
        omega
    · have hne : (search_max bl n a mi).1 ≠ -1 := by omega
      have hc : (unprocessed n (a.set m 1)).card < f := by
        have := unprocessed_set_card n a m hm2 hm3
        omega
      obtain ⟨idxs, e1, e2, e3, e4⟩ :=
        ih (a.set m 1) (m : Int) (menu_item_add top (K.A_DEVICES + (m : Int))
          (item_label K (bl.list.getD m default))
          (some (item_desc (bl.list.getD m default))) none) hc
      refine ⟨m :: idxs, ?_, ?_, ?_, ?_⟩
      · rw [fill_loop]
        simp only [hm1, Int.toNat_ofNat, if_neg hne]
        rw [if_pos (ge_iff_le.mpr h0)]
        simp only []
        rw [e1]
        simp [menu_item_add, device_entry]
      · intro i hi
        rcases List.mem_cons.mp hi with rfl | hi
        · exact ⟨hm2, hm3, by rw [hm4]; exact h0⟩
        · obtain ⟨q1, q2, q3⟩ := e2 i hi
          exact ⟨q1, ((marked_iff a m i).mp q2).2, q3⟩
      · intro j hj hz hp
        by_cases hjm : j = m
        · subst hjm
          exact List.mem_cons_self _ _
        · exact List.mem_cons_of_mem _ (e3 j hj ((marked_iff a m j).mpr ⟨hjm, hz⟩) hp)
      · refine List.Pairwise.cons ?_ e4
        intro y hy
        obtain ⟨q1, q2, _⟩ := e2 y hy
        obtain ⟨hym, hya⟩ := (marked_iff a m y).mp q2
        have hle := hm5 y q1 hya
        unfold placed_before
        rw [hm4]
        rcases lt_or_eq_of_le hle with hlt | heq
        · exact Or.inl hlt
        · right
          refine ⟨heq, ?_⟩
          rcases Nat.lt_trichotomy y m with hlt | heq2 | hgt
          · have := hm6 y hlt hya
            omega
          · exact absurd heq2 hym
          · exact hgt

/-- Storing the top level's own items changes nothing. -/
theorem with_top_list_self (f : Nat → kx_menu_item) (params : params_t) :
    with_top_list params (params.menu.top.list ++ List.map f []) = params := by
  obtain ⟨b, ⟨⟨tp, tl, tc⟩, sy, cu⟩, c⟩ := params
  simp [with_top_list]

/-- What `fill_menu` does as a whole: it always returns, and what it appends
to the top level are the entries of slots of non-negative priority, in the
order `placed_before`; when both allocations succeed it returns 0 and every
slot of non-negative priority has its entry. -/
theorem fill_menu_spec (K : kx_consts) (desc_ok a_ok : Bool) (params : params_t)
    (bl : bootconf_t) (hbl : params.bootcfg = some bl) :
    ∃ (rc : Int) (idxs : List Nat),
      fill_menu K desc_ok a_ok params
        = some (rc, with_top_list params
            (params.menu.top.list ++ idxs.map (device_entry K bl))) ∧
      (∀ i, i ∈ idxs → i < bl.fill ∧ 0 ≤ prio bl i) ∧
      idxs.Pairwise (placed_before bl) ∧
      (desc_ok = true → a_ok = true →
        rc = 0 ∧ ∀ j, j < bl.fill → 0 ≤ prio bl j → j ∈ idxs) := by
  by_cases hfill : bl.fill > 0
  · cases desc_ok
    · refine ⟨-1, [], ?_, ?_, List.Pairwise.nil, ?_⟩
      · rw [with_top_list_self]
        simp [fill_menu, hbl, hfill]
      · intro i hi
        exact absurd hi (List.not_mem_nil i)
      · intro h
        exact absurd h (by decide)
    · cases a_ok
      · refine ⟨-1, [], ?_, ?_, List.Pairwise.nil, ?_⟩
        · rw [with_top_list_self]
          simp [fill_menu, hbl, hfill]
        · intro i hi
          exact absurd hi (List.not_mem_nil i)
        · intro _ h
          exact absurd h (by decide)
      · have hc : (unprocessed bl.fill (List.replicate bl.fill 0)).card < bl.fill + 1 := by
          have h1 := Finset.card_filter_le (Finset.range bl.fill)
            (fun j => (List.replicate bl.fill (0 : Int))[j]? = some 0)
          rw [Finset.card_range] at h1
          exact Nat.lt_succ_of_le h1
        obtain ⟨idxs, e1, e2, e3, e4⟩ :=
          fill_loop_spec K bl bl.fill (bl.fill + 1) (List.replicate bl.fill 0) (-1)
            params.menu.top hc
        refine ⟨0, idxs, ?_, ?_, e4, ?_⟩
        · simp [fill_menu, hbl, hfill, e1, with_top_list]
        · intro i hi
          exact ⟨(e2 i hi).1, (e2 i hi).2.2⟩
        · intro _ _
          refine ⟨rfl, ?_⟩
          intro j hj hp
          refine e3 j hj ?_ hp
          simp [List.getElem?_replicate, hj]
  · refine ⟨0, [], ?_, ?_, List.Pairwise.nil, ?_⟩
    · rw [with_top_list_self]
      simp [fill_menu, hbl, hfill]
    · intro i hi
      exact absurd hi (List.not_mem_nil i)
    · intro _ _
      refine ⟨rfl, ?_⟩
      intro j hj
      omega

/-- Decoding the id of the entry of slot `i` gives back the item of slot `i`. -/
theorem decode_device_entry (K : kx_consts) (bl : bootconf_t) (i : Nat) :
    decode_choice K bl (device_entry K bl i).id = bl.list.getD i default := by
  simp [decode_choice, device_entry]

/-- Items with pairwise distinct priorities: equal priority means equal slot. -/
theorem prio_inj (bl : bootconf_t) (hd : (bl.list.map (fun t => t.priority)).Nodup)
    (i j : Nat) (hi : i < bl.fill) (hj : j < bl.fill) (h : prio bl i = prio bl j) : i = j := by
  have hi2 : i < (bl.list.map (fun t => t.priority)).length := by simpa [bootconf_t.fill] using hi
  have hj2 : j < (bl.list.map (fun t => t.priority)).length := by simpa [bootconf_t.fill] using hj
  have hi3 : i < bl.list.length := hi
  have hj3 : j < bl.list.length := hj
  have e : (bl.list.map (fun t => t.priority))[i] = (bl.list.map (fun t => t.priority))[j] := by
    simp only [prio, List.getD_eq_getElem?_getD, List.getElem?_eq_getElem hi3,
      List.getElem?_eq_getElem hj3, Option.getD_some] at h
    simpa using h
  exact (List.Nodup.getElem_inj_iff hd).mp e

/-- In a list ordered pairwise by a relation, of two different members the one
that the relation does not allow second comes first. -/
theorem pairwise_first (R : Nat → Nat → Prop) (l : List Nat) (h : l.Pairwise R) (i j : Nat)
    (hi : i ∈ l) (hj : j ∈ l) (hne : i ≠ j) (hn : ¬ R j i) :
    ∃ l1 l2 l3, l = l1 ++ i :: l2 ++ j :: l3 := by
  obtain ⟨s, t, rfl⟩ := List.append_of_mem hi
  rw [List.pairwise_append] at h
  obtain ⟨_, _, h3⟩ := h
  rcases List.mem_append.mp hj with hs | ht
  · exact absurd (h3 j hs i (List.mem_cons_self _ _)) hn
  · rcases List.mem_cons.mp ht with e | ht2
    · exact absurd e.symm hne
    · obtain ⟨t1, t2, rfl⟩ := List.append_of_mem ht2
      exact ⟨s, t1, t2, by simp⟩

/-- The priority of a filled slot is the priority of a member of the list. -/
theorem prio_mem (bl : bootconf_t) (j : Nat) (hj : j < bl.fill) :
    ∃ t, t ∈ bl.list ∧ t.priority = prio bl j := by
  have hj2 : j < bl.list.length := hj
  refine ⟨bl.list[j], List.getElem_mem _, ?_⟩
  simp [prio, List.getD_eq_getElem?_getD, List.getElem?_eq_getElem hj2]

/-- C1: for every registry whose items have pairwise distinct priorities, the
device entries that `fill_menu` appends to the top menu level appear in
strictly descending order of the priority of the items they stand for. -/
theorem fill_menu_descending_priority (K : kx_consts) (desc_ok a_ok : Bool) (params : params_t)
    (bl : bootconf_t) (hbl : params.bootcfg = some bl)
    (hd : (bl.list.map (fun t => t.priority)).Nodup) :
    ∃ (rc : Int) (p : params_t) (new : List kx_menu_item),
      fill_menu K desc_ok a_ok params = some (rc, p) ∧
      p.menu.top.list = params.menu.top.list ++ new ∧
      new.Pairwise (fun e1 e2 =>
        (decode_choice K bl e1.id).priority > (decode_choice K bl e2.id).priority) := by
  obtain ⟨rc, idxs, h1, h2, h3, _⟩ := fill_menu_spec K desc_ok a_ok params bl hbl
  refine ⟨rc, _, idxs.map (device_entry K bl), h1, rfl, ?_⟩
  rw [List.pairwise_map]
  refine List.Pairwise.imp_of_mem ?_ h3
  intro x y hx hy hxy
  rw [decode_device_entry, decode_device_entry]
  show prio bl x > prio bl y
  rcases hxy with hlt | ⟨heq, hlt⟩
  · exact hlt
  · have := prio_inj bl hd y x (h2 y hy).1 (h2 x hx).1 heq
    omega

/-- Sample for C1: the registry with priorities 1, 7 and 3. -/
theorem fill_menu_descending_priority_witness :
    ∃ (rc : Int) (p : params_t) (new : List kx_menu_item),
      fill_menu sample_consts true true (sample_params items_distinct) = some (rc, p) ∧
      p.menu.top.list = (sample_params items_distinct).menu.top.list ++ new ∧
      new.Pairwise (fun e1 e2 =>
        (decode_choice sample_consts (sample_bootcfg items_distinct) e1.id).priority >
          (decode_choice sample_consts (sample_bootcfg items_distinct) e2.id).priority) :=
  fill_menu_descending_priority sample_consts true true (sample_params items_distinct)
    (sample_bootcfg items_distinct) rfl (by decide)


/-- C2 as stated fails: in the registry of two items of equal (and so
maximal) priority -1, `fill_menu` returns 0 and appends no entry at all, so
the entry of slot 0 is not placed before the entry of slot 1. -/
theorem fill_menu_stable_fails_negative :
    ((0 : Nat) < 1 ∧ 1 < (sample_bootcfg items_tie_negative).fill ∧
      prio (sample_bootcfg items_tie_negative) 0 = prio (sample_bootcfg items_tie_negative) 1 ∧
      ∀ t, t ∈ (sample_bootcfg items_tie_negative).list →
        t.priority ≤ prio (sample_bootcfg items_tie_negative) 0) ∧
    fill_menu sample_consts true true (sample_params items_tie_negative)
      = some (0, sample_params items_tie_negative) ∧
    ¬ ∃ (rc : Int) (p : params_t) (l1 l2 l3 : List kx_menu_item),
      fill_menu sample_consts true true (sample_params items_tie_negative) = some (rc, p) ∧
      p.menu.top.list = (sample_params items_tie_negative).menu.top.list ++
        (l1 ++ device_entry sample_consts (sample_bootcfg items_tie_negative) 0 :: l2 ++
          device_entry sample_consts (sample_bootcfg items_tie_negative) 1 :: l3) := by
  have hrun : fill_menu sample_consts true true (sample_params items_tie_negative)
      = some (0, sample_params items_tie_negative) := by decide
  refine ⟨⟨by decide, by decide, by decide, by decide⟩, hrun, ?_⟩
  rintro ⟨rc, p, l1, l2, l3, h1, h2⟩
  rw [hrun] at h1
  have hp : p = sample_params items_tie_negative := by
    injection h1 with h1
    injection h1 with _ h1
    exact h1.symm
  rw [hp] at h2
  have hlen := congrArg List.length h2
  simp [sample_params, sample_menu] at hlen

/-- C2, amended: for every registry containing two items with equal maximal
priority that is not negative, `fill_menu` appends the entry of the item with
the lower registry index before the entry of the other one. -/
theorem fill_menu_stable (K : kx_consts) (params : params_t) (bl : bootconf_t)
    (hbl : params.bootcfg = some bl) (i j : Nat) (hij : i < j) (hj : j < bl.fill)
    (heq : prio bl i = prio bl j)
    (_hmax : ∀ t, t ∈ bl.list → t.priority ≤ prio bl i)
    (hnn : 0 ≤ prio bl i) :
    ∃ (p : params_t) (l1 l2 l3 : List kx_menu_item),
      fill_menu K true true params = some (0, p) ∧
      p.menu.top.list = params.menu.top.list ++
        (l1 ++ device_entry K bl i :: l2 ++ device_entry K bl j :: l3) := by
  obtain ⟨rc, idxs, h1, _, h3, h4⟩ := fill_menu_spec K true true params bl hbl
  obtain ⟨hrc, hall⟩ := h4 rfl rfl
  subst hrc
  have hi : i ∈ idxs := hall i (by omega) hnn
  have hjm : j ∈ idxs := hall j hj (by omega)
  have hn : ¬ placed_before bl j i := by
    unfold placed_before
    omega
  obtain ⟨l1, l2, l3, hl⟩ := pairwise_first (placed_before bl) idxs h3 i j hi hjm (by omega) hn
  refine ⟨_, l1.map (device_entry K bl), l2.map (device_entry K bl),
    l3.map (device_entry K bl), h1, ?_⟩
  simp [with_top_list, hl]

/-- Sample for C2: slots 0 and 2 share the greatest priority 7. -/
theorem fill_menu_stable_witness :
    ∃ (p : params_t) (l1 l2 l3 : List kx_menu_item),
      fill_menu sample_consts true true (sample_params items_tie) = some (0, p) ∧
      p.menu.top.list = (sample_params items_tie).menu.top.list ++
        (l1 ++ device_entry sample_consts (sample_bootcfg items_tie) 0 :: l2 ++
          device_entry sample_consts (sample_bootcfg items_tie) 2 :: l3) :=
  fill_menu_stable sample_consts (sample_params items_tie) (sample_bootcfg items_tie) rfl 0 2
    (by decide) (by decide) (by decide) (by decide) (by decide)

/-- C3 as stated fails: the registry holds two items, the first of priority
-5, and `fill_menu` appends one entry only, the one of slot 1; slot 0 is left
unplaced when the loop stops. -/
theorem fill_menu_count_fails_negative :
    (sample_bootcfg items_one_negative).fill = 2 ∧
    fill_menu sample_consts true true (sample_params items_one_negative)
      = some (0, with_top_list (sample_params items_one_negative)
          ((sample_params items_one_negative).menu.top.list ++
            [device_entry sample_consts (sample_bootcfg items_one_negative) 1])) := by
  constructor
  · decide
  · set_option maxRecDepth 100000 in decide

/-- C3, amended: for every registry with `fill > 0` whose items all have a
priority that is not negative (and no allocation failure), `fill_menu`
returns 0 having appended exactly one top-level entry per boot item: the
number of appended entries equals `fill`, and the registry indices the
entries decode to are the indices `0 .. fill-1`, each exactly once. -/
theorem fill_menu_one_entry_per_item (K : kx_consts) (params : params_t) (bl : bootconf_t)
    (hbl : params.bootcfg = some bl) (_hfill : 0 < bl.fill)
    (hnn : ∀ t, t ∈ bl.list → 0 ≤ t.priority) :
    ∃ (p : params_t) (new : List kx_menu_item),
      fill_menu K true true params = some (0, p) ∧
      p.menu.top.list = params.menu.top.list ++ new ∧
      new.length = bl.fill ∧
      (new.map (fun e => e.id - K.A_DEVICES)).Perm
        ((List.range bl.fill).map Int.ofNat) := by
  obtain ⟨rc, idxs, h1, h2, h3, h4⟩ := fill_menu_spec K true true params bl hbl
  obtain ⟨hrc, hall⟩ := h4 rfl rfl
  subst hrc
  have hnd : idxs.Nodup := by
    refine List.Pairwise.imp ?_ h3
    intro x y hxy e
    unfold placed_before at hxy
    subst e
    omega
  have hperm : idxs.Perm (List.range bl.fill) := by
    rw [List.perm_ext_iff_of_nodup hnd (List.nodup_range _)]
    intro x
    rw [List.mem_range]
    constructor
    · intro hx
      exact (h2 x hx).1
    · intro hx
      obtain ⟨t, ht, hp⟩ := prio_mem bl x hx
      exact hall x hx (by rw [← hp]; exact hnn t ht)
  refine ⟨_, idxs.map (device_entry K bl), h1, rfl, ?_, ?_⟩
  · rw [List.length_map, hperm.length_eq, List.length_range]
  · have e : (idxs.map (device_entry K bl)).map (fun e => e.id - K.A_DEVICES)
        = idxs.map Int.ofNat := by
      simp [device_entry, Function.comp_def]
    rw [e]
    exact hperm.map _

/-- Sample for C3: the registry with priorities 1, 7 and 3. -/
theorem fill_menu_one_entry_per_item_witness :
    ∃ (p : params_t) (new : List kx_menu_item),
      fill_menu sample_consts true true (sample_params items_distinct) = some (0, p) ∧
      p.menu.top.list = (sample_params items_distinct).menu.top.list ++ new ∧
      new.length = (sample_bootcfg items_distinct).fill ∧
      (new.map (fun e => e.id - sample_consts.A_DEVICES)).Perm
        ((List.range (sample_bootcfg items_distinct).fill).map Int.ofNat) :=
  fill_menu_one_entry_per_item sample_consts (sample_params items_distinct)
    (sample_bootcfg items_distinct) rfl (by decide) (by decide)


/-- C4: every entry that `fill_menu` appends has the action id `A_DEVICES`
plus the registry index of the boot item it was built from; so the decoding
of `main`, `id - A_DEVICES`, is an index below `fill`, the item
`start_booting` then reads in `list[choice]` is that boot item, and the label
and the description of the entry are the ones of that item. -/
theorem fill_menu_entry_ids (K : kx_consts) (desc_ok a_ok : Bool) (params : params_t)
    (bl : bootconf_t) (hbl : params.bootcfg = some bl) :
    ∃ (rc : Int) (p : params_t) (new : List kx_menu_item),
      fill_menu K desc_ok a_ok params = some (rc, p) ∧
      p.menu.top.list = params.menu.top.list ++ new ∧
      ∀ e, e ∈ new → ∃ (i : Nat) (item : boot_item_t),
        i < bl.fill ∧ bl.list[i]? = some item ∧
        e.id = K.A_DEVICES + (i : Int) ∧ e.id - K.A_DEVICES = (i : Int) ∧
        decode_choice K bl e.id = item ∧
        (∀ O, start_booting K O p (e.id - K.A_DEVICES) = some (boot_item K O item)) ∧
        e.label = item_label K item ∧
        e.description = some (item_desc item) := by
  obtain ⟨rc, idxs, h1, h2, _, _⟩ := fill_menu_spec K desc_ok a_ok params bl hbl
  refine ⟨rc, _, idxs.map (device_entry K bl), h1, rfl, ?_⟩
  intro e he
  obtain ⟨i, hi, rfl⟩ := List.mem_map.mp he
  have hlt : i < bl.list.length := (h2 i hi).1
  have hget : bl.list[i]? = some bl.list[i] := List.getElem?_eq_getElem hlt
  have hD : bl.list.getD i default = bl.list[i] := by
    simp [List.getD_eq_getElem?_getD, hget]
  refine ⟨i, bl.list[i], hlt, hget, rfl, ?_, ?_, ?_, ?_, ?_⟩
  · simp [device_entry]
  · rw [decode_device_entry, hD]
  · intro O
    have hc : (device_entry K bl i).id - K.A_DEVICES = (i : Int) := by simp [device_entry]
    have hneg : ¬ ((i : Int) < 0) := by omega
    simp [start_booting, with_top_list, hbl, hc, hget, hneg]
  · show item_label K (bl.list.getD i default) = _
    rw [hD]
  · show some (item_desc (bl.list.getD i default)) = _
    rw [hD]

/-- Sample for C4: the registry with priorities 1, 7 and 3. -/
theorem fill_menu_entry_ids_witness :
    ∃ (rc : Int) (p : params_t) (new : List kx_menu_item),
      fill_menu sample_consts true true (sample_params items_distinct) = some (rc, p) ∧
      p.menu.top.list = (sample_params items_distinct).menu.top.list ++ new ∧
      ∀ e, e ∈ new → ∃ (i : Nat) (item : boot_item_t),
        i < (sample_bootcfg items_distinct).fill ∧
        (sample_bootcfg items_distinct).list[i]? = some item ∧
        e.id = sample_consts.A_DEVICES + (i : Int) ∧
        e.id - sample_consts.A_DEVICES = (i : Int) ∧
        decode_choice sample_consts (sample_bootcfg items_distinct) e.id = item ∧
        (∀ O, start_booting sample_consts O p (e.id - sample_consts.A_DEVICES)
          = some (boot_item sample_consts O item)) ∧
        e.label = item_label sample_consts item ∧
        e.description = some (item_desc item) :=
  fill_menu_entry_ids sample_consts true true (sample_params items_distinct)
    (sample_bootcfg items_distinct) rfl


/-! ## Properties of the boot executor -/

/-- The text built by the `strcpy`/`strcat` sequence is the option name
followed by the command line in the words of the specification. -/
theorem cmdline_text_eq (K : kx_consts) (item : boot_item_t) (c : String) :
    cmdline_text K item c = "--command-line=" ++ spec_cmdline K item c := by
  unfold cmdline_text spec_cmdline
  cases has_flag item.boottype K.BOOT_TYPE_IMAGE <;>
    simp only [String.append_assoc, if_true, if_false, Bool.false_eq_true]

/-- The calls of `start_booting` for an item of the kexec type whose mounting
part succeeds and whose command line is read. -/
theorem boot_item_trace (K : kx_consts) (O : boot_outcomes) (item : boot_item_t) (c : String)
    (hk : has_flag item.boottype K.BOOT_TYPE_KEXEC = true)
    (hx : has_flag item.boottype K.BOOT_TYPE_LINUX = false → O.execve_ok = false)
    (hm : (mount_stage K O item).1 = none)
    (hc : O.cmdline = some c) :
    boot_item K O item =
      ((match O.exec_status with
          | none => none
          | some _ => some (-1)),
        execve_effects K item ++ (mount_stage K O item).2 ++
          ([event.fopen_cmdline true,
            event.system (load_op (load_argv K O item c)) (some O.load_status)] ++
           release_stage K O item ++ [event.system "kexec -e" O.exec_status])) := by
  have hcond : (!has_flag item.boottype K.BOOT_TYPE_LINUX && O.execve_ok) = false := by
    cases hL : has_flag item.boottype K.BOOT_TYPE_LINUX
    · simp [hx hL]
    · simp
  unfold boot_item
  simp only [hcond, hm, hk, kexec_stage, hc, execve_effects]
  simp

/-- C5: for every item of the kexec type (mounting part passed, command line
read, argument allocated), the load call of `start_booting` passes as its last
argument `--command-line=` followed by the active command line, then
` partition=<device>`, then ` image=<image-name>` (image-backed) or
` directory=<boot-directory>`, wrapped in double quotes. -/
theorem start_booting_cmdline (K : kx_consts) (O : boot_outcomes) (item : boot_item_t)
    (c : String)
    (hk : has_flag item.boottype K.BOOT_TYPE_KEXEC = true)
    (hx : has_flag item.boottype K.BOOT_TYPE_LINUX = false → O.execve_ok = false)
    (hm : (mount_stage K O item).1 = none)
    (hc : O.cmdline = some c)
    (ha : O.cmdline_malloc_ok = true) :
    cmdline_arg K O item c = some ("--command-line=" ++ spec_cmdline K item c) ∧
    ∃ pre post, (boot_item K O item).2 =
      pre ++ event.system (load_op [some K.KEXEC_PATH, some "--load-hardboot",
        some item.kernelpath, initrd_arg O item, some "--mem-min=0x84000000",
        some ("--command-line=" ++ spec_cmdline K item c)]) (some O.load_status) :: post := by
  have harg : cmdline_arg K O item c = some ("--command-line=" ++ spec_cmdline K item c) := by
    simp [cmdline_arg, ha, cmdline_text_eq]
  refine ⟨harg, ?_⟩
  rw [boot_item_trace K O item c hk hx hm hc]
  refine ⟨execve_effects K item ++ (mount_stage K O item).2 ++ [event.fopen_cmdline true],
    release_stage K O item ++ [event.system "kexec -e" O.exec_status], ?_⟩
  simp [load_argv, harg]

/-- Sample for C5: device `/dev/mmcblk0p1`, file system `ext4`, directory
`/boot` and active command line `console=ttyS0` give exactly
`"console=ttyS0 partition=/dev/mmcblk0p1 directory=/boot"`, quotes included. -/
theorem start_booting_cmdline_witness :
    cmdline_arg sample_consts (all_ok "console=ttyS0") (sample_item "/dev/mmcblk0p1" 5 0)
        "console=ttyS0"
      = some ("--command-line=" ++
          "\"console=ttyS0 partition=/dev/mmcblk0p1 directory=/boot\"") ∧
    ∃ pre post, (boot_item sample_consts (all_ok "console=ttyS0")
        (sample_item "/dev/mmcblk0p1" 5 0)).2 =
      pre ++ event.system (load_op [some "/usr/sbin/kexec", some "--load-hardboot",
        some "/mnt/boot/zImage", none, some "--mem-min=0x84000000",
        some ("--command-line=" ++
          "\"console=ttyS0 partition=/dev/mmcblk0p1 directory=/boot\"")]) (some 0) :: post :=
  start_booting_cmdline sample_consts (all_ok "console=ttyS0")
    (sample_item "/dev/mmcblk0p1" 5 0) "console=ttyS0"
    (by decide) (by decide) (by decide) rfl rfl


/-- C6 as stated fails, in three ways. An item of the Linux type without the
kexec bit is mounted on the root mount point and `start_booting` returns -1
with it still mounted. For an item of the kexec type, when `/proc/cmdline`
cannot be opened, `start_booting` returns -1 after the mount, which is still
in place. And for an image-backed item of the kexec type, when the mount of
the loop device fails (its result is not checked) while another filesystem
is mounted on the root mount point, the later `umount` of the root mount
point removes that other filesystem. Every unmount call is taken to succeed
in all three. -/
theorem start_booting_leaves_mount :
    (boot_item sample_consts (all_ok "console=ttyS0") (sample_item "/dev/mmcblk0p1" 1 0)).1
        = some (-1) ∧
      run_events empty_state
          (boot_item sample_consts (all_ok "console=ttyS0")
            (sample_item "/dev/mmcblk0p1" 1 0)).2
        = { mounts := [{ source := "/dev/mmcblk0p1", target := "/newroot", fstype := "ext4" }],
            loops := [] } ∧
    (boot_item sample_consts no_cmdline (sample_item "/dev/mmcblk0p1" 5 0)).1 = some (-1) ∧
      run_events empty_state
          (boot_item sample_consts no_cmdline (sample_item "/dev/mmcblk0p1" 5 0)).2
        = { mounts := [{ source := "/dev/mmcblk0p1", target := "/newroot", fstype := "ext4" }],
            loops := [] } ∧
    (boot_item sample_consts loop_mount_fails (sample_item "/dev/mmcblk0p1" 7 0)).1
        = some (-1) ∧
      run_events root_busy_state
          (boot_item sample_consts loop_mount_fails (sample_item "/dev/mmcblk0p1" 7 0)).2
        = empty_state ∧
      root_busy_state ≠ empty_state := by
  decide

/-- Removing the most recent mount on a target undoes mounting on it. -/
theorem remove_mount_cons (s t f : String) (l : List mount_entry) :
    remove_mount t ({ source := s, target := t, fstype := f } :: l) = l := by
  simp [remove_mount]

/-- The state after the calls of a list followed by one more call. -/
theorem run_events_append (w : sys_state) (a b : List event) :
    run_events w (a ++ b) = run_events (run_events w a) b := by
  simp [run_events, List.foldl_append]

/-- An `execve` call that came back has changed nothing. -/
theorem run_execve_effects (K : kx_consts) (item : boot_item_t) (w : sys_state) :
    run_events w (execve_effects K item) = w := by
  unfold execve_effects
  cases has_flag item.boottype K.BOOT_TYPE_LINUX <;> simp [run_events, apply_event]

/-- A mounting part that returns an error leaves the state as it found it,
when its unmount call succeeds. -/
theorem mount_stage_unwinds (K : kx_consts) (O : boot_outcomes) (item : boot_item_t)
    (rc : Int) (hu : O.unwind_umount_ok = true) (hr : (mount_stage K O item).1 = some rc)
    (w : sys_state) :
    rc = -1 ∧ run_events w (mount_stage K O item).2 = w := by
  unfold mount_stage at hr ⊢
  cases hI : has_flag item.boottype K.BOOT_TYPE_IMAGE <;>
    cases h1 : O.mount_aux_ok <;> cases h2 : O.open_image_ok <;>
    cases h3 : O.open_loop_ok <;> cases h4 : O.loop_set_ok <;>
    cases h5 : O.mount_root_ok <;>
    simp [hI, h1, h2, h3, h4, h5, hu, run_events, apply_event, remove_mount] at hr ⊢ <;>
    omega

/-- Removing a mount on a target on which nothing is mounted changes
nothing. -/
theorem remove_mount_absent (t : String) (l : List mount_entry)
    (h : ∀ m, m ∈ l → m.target ≠ t) : remove_mount t l = l := by
  induction l with
  | nil => rfl
  | cons m rest ih =>
    have hm : ¬ m.target = t := h m (List.mem_cons_self _ _)
    have hr : remove_mount t rest = rest :=
      ih (fun x hx => h x (List.mem_cons_of_mem _ hx))
    simp [remove_mount, hm, hr]

/-- Whenever `start_booting` returns to its caller, the value it returns is
-1. -/
theorem boot_item_returns_error (K : kx_consts) (O : boot_outcomes) (item : boot_item_t)
    (rc : Int) (hret : (boot_item K O item).1 = some rc) : rc = -1 := by
  unfold boot_item at hret
  by_cases hcond : (!has_flag item.boottype K.BOOT_TYPE_LINUX && O.execve_ok) = true
  · rw [if_pos hcond] at hret
    simp at hret
  · rw [if_neg hcond] at hret
    cases hm : (mount_stage K O item).1 with
    | some r =>
      simp only [hm, Option.some.injEq] at hret
      subst hret
      unfold mount_stage at hm
      cases hI : has_flag item.boottype K.BOOT_TYPE_IMAGE <;>
        cases h1 : O.mount_aux_ok <;> cases h2 : O.open_image_ok <;>
        cases h3 : O.open_loop_ok <;> cases h4 : O.loop_set_ok <;>
        cases h5 : O.mount_root_ok <;>
        simp [hI, h1, h2, h3, h4, h5] at hm <;>
        omega
    | none =>
      simp only [hm] at hret
      by_cases hk : has_flag item.boottype K.BOOT_TYPE_KEXEC = true
      · rw [if_pos hk] at hret
        unfold kexec_stage at hret
        cases hc : O.cmdline with
        | none =>
          simp [hc] at hret
          omega
        | some c =>
          cases he : O.exec_status <;> simp [hc, he] at hret
          omega
      · rw [if_neg hk] at hret
        simp at hret
        omega

/-- C6, amended: for every item and every combination of outcomes of the
external calls: if `start_booting` returns to its caller it returns the
error code -1 (also when the active command line cannot be read); and,
assuming the unmount and detach calls themselves succeed (the opening of
`/dev/loop0` that precedes the `LOOP_CLR_FD` request included), the mount and
loop-device state after the call equals the state before it in each of these
cases: the mounting part fails (whatever the boot type of the item); or the
item is of the kexec type, the active command line is read and, for an
image-backed item, the unchecked mount of the loop device succeeds or nothing
was mounted on the root mount point before the call (the two mount points
being different). -/
theorem start_booting_restores_state (K : kx_consts) (O : boot_outcomes) (item : boot_item_t)
    (w : sys_state) (rc : Int)
    (hret : (boot_item K O item).1 = some rc) :
    rc = -1 ∧
    ((O.unwind_umount_ok = true ∧ O.umount_root_ok = true ∧ O.umount_aux_ok = true ∧
        O.reopen_loop_ok = true ∧ O.loop_clr_ok = true) →
      (has_flag item.boottype K.BOOT_TYPE_KEXEC = true ∨ (mount_stage K O item).1 ≠ none) →
      (has_flag item.boottype K.BOOT_TYPE_KEXEC = true → (mount_stage K O item).1 = none →
        O.cmdline ≠ none) →
      (has_flag item.boottype K.BOOT_TYPE_IMAGE = true → (mount_stage K O item).1 = none →
        O.mount_loop_ok = true ∨
          (K.MOUNTPOINT ≠ K.ROOTFS ∧ ∀ m, m ∈ w.mounts → m.target ≠ K.ROOTFS)) →
      run_events w (boot_item K O item).2 = w) := by
  refine ⟨boot_item_returns_error K O item rc hret, ?_⟩
  intro hu hgap hc hl
  obtain ⟨hu1, hu2, hu3, hu4, hu5⟩ := hu
  have hx : has_flag item.boottype K.BOOT_TYPE_LINUX = false → O.execve_ok = false := by
    intro hL
    cases he : O.execve_ok
    · rfl
    · simp [boot_item, hL, he] at hret
  cases hm : (mount_stage K O item).1 with
  | some r =>
    have hcond : (!has_flag item.boottype K.BOOT_TYPE_LINUX && O.execve_ok) = false := by
      cases hL : has_flag item.boottype K.BOOT_TYPE_LINUX
      · simp [hx hL]
      · simp
    have hb : boot_item K O item = (some r, execve_effects K item ++ (mount_stage K O item).2) := by
      unfold boot_item
      simp only [hcond, hm, execve_effects]
      simp
    rw [hb]
    obtain ⟨_, h2⟩ := mount_stage_unwinds K O item r hu1 hm w
    simp only [run_events_append, run_execve_effects, h2]
  | none =>
    have hk : has_flag item.boottype K.BOOT_TYPE_KEXEC = true := by
      rcases hgap with hk | hne
      · exact hk
      · exact absurd hm hne
    obtain ⟨c, hc⟩ := Option.ne_none_iff_exists'.mp (hc hk hm)
    rw [boot_item_trace K O item c hk hx hm hc]
    simp only [run_events_append, run_execve_effects]
    unfold mount_stage at hm ⊢
    unfold release_stage
    cases hI : has_flag item.boottype K.BOOT_TYPE_IMAGE
    · cases h5 : O.mount_root_ok <;>
        simp [hI, h5, hu2, run_events, apply_event, remove_mount] at hm ⊢
    · have hmn : (mount_stage K O item).1 = none := by
        unfold mount_stage
        exact hm
      rcases hl hI hmn with hl2 | ⟨hne, habs⟩
      · cases h1 : O.mount_aux_ok <;> cases h2 : O.open_image_ok <;>
          cases h3 : O.open_loop_ok <;> cases h4 : O.loop_set_ok <;>
          cases h6 : O.reopen_image_ok <;>
          simp [hI, h1, h2, h3, h4, h6, hl2, hu2, hu3, hu4, hu5, run_events, apply_event,
            remove_mount] at hm ⊢
      · have hr := remove_mount_absent K.ROOTFS w.mounts habs
        cases h1 : O.mount_aux_ok <;> cases h2 : O.open_image_ok <;>
          cases h3 : O.open_loop_ok <;> cases h4 : O.loop_set_ok <;>
          cases h6 : O.reopen_image_ok <;> cases h7 : O.mount_loop_ok <;>
          simp [hI, h1, h2, h3, h4, h6, h7, hu2, hu3, hu4, hu5, run_events, apply_event,
            remove_mount, hne, hr] at hm ⊢

/-- Sample for C6: an image-backed item of the Linux type without the kexec
bit whose opening of `/dev/loop0` fails: `start_booting` returns -1 and the
auxiliary mount is undone. -/
theorem start_booting_restores_state_witness :
    (-1 : Int) = -1 ∧
    run_events empty_state
      (boot_item sample_consts open_loop_fails (sample_item "/dev/mmcblk0p1" 3 0)).2
      = empty_state :=
  have h := start_booting_restores_state sample_consts open_loop_fails
    (sample_item "/dev/mmcblk0p1" 3 0) empty_state (-1) (by decide)
  ⟨h.1, h.2 (by decide) (by decide) (by decide) (by decide)⟩


/-- C7: for every image-backed item, when the mount on the auxiliary mount
point and the two `open` calls succeed and the `LOOP_SET_FD` request fails,
`start_booting` returns -1; the only mount it made is the one on the auxiliary
mount point (no root mount), the unmount of that mount point is its last
call, and when that unmount succeeds the mount and loop-device state after
the call equals the state before it. -/
theorem start_booting_loop_attach_fails (K : kx_consts) (O : boot_outcomes)
    (item : boot_item_t)
    (hI : has_flag item.boottype K.BOOT_TYPE_IMAGE = true)
    (hx : has_flag item.boottype K.BOOT_TYPE_LINUX = false → O.execve_ok = false)
    (h1 : O.mount_aux_ok = true) (h2 : O.open_image_ok = true) (h3 : O.open_loop_ok = true)
    (h4 : O.loop_set_ok = false) :
    (boot_item K O item).1 = some (-1) ∧
    (boot_item K O item).2.filter is_effect =
      execve_effects K item ++
        [event.mount item.device K.MOUNTPOINT item.fstype true,
          event.loop_set_fd item.imagepath false,
          event.umount K.MOUNTPOINT O.unwind_umount_ok] ∧
    (O.unwind_umount_ok = true → ∀ w, run_events w (boot_item K O item).2 = w) := by
  have hcond : (!has_flag item.boottype K.BOOT_TYPE_LINUX && O.execve_ok) = false := by
    cases hL : has_flag item.boottype K.BOOT_TYPE_LINUX
    · simp [hx hL]
    · simp
  have hm : mount_stage K O item =
      (some (-1), [event.mount item.device K.MOUNTPOINT item.fstype true,
        event.open_file item.imagepath true,
        event.open_file "/dev/loop0" true,
        event.loop_set_fd item.imagepath false,
        event.close item.imagepath true,
        event.close "/dev/loop0" true,
        event.umount K.MOUNTPOINT O.unwind_umount_ok]) := by
    simp [mount_stage, hI, h1, h2, h3, h4]
  have hb : boot_item K O item = (some (-1), execve_effects K item ++ (mount_stage K O item).2) := by
    unfold boot_item
    simp only [hcond, hm, execve_effects]
    simp
  rw [hb, hm]
  refine ⟨rfl, ?_, ?_⟩
  · unfold execve_effects
    cases has_flag item.boottype K.BOOT_TYPE_LINUX <;> simp [is_effect]
  · intro hu w
    simp only [run_events_append, run_execve_effects]
    simp [hu, run_events, apply_event, remove_mount]

/-- Sample for C7: an image-backed item of the kexec type whose
`LOOP_SET_FD` request fails. -/
theorem start_booting_loop_attach_fails_witness :
    (boot_item sample_consts loop_set_fails (sample_item "/dev/mmcblk0p1" 7 0)).1 = some (-1) ∧
    (boot_item sample_consts loop_set_fails (sample_item "/dev/mmcblk0p1" 7 0)).2.filter
        is_effect =
      execve_effects sample_consts (sample_item "/dev/mmcblk0p1" 7 0) ++
        [event.mount "/dev/mmcblk0p1" "/mnt" "ext4" true,
          event.loop_set_fd "/mnt/system.img" false,
          event.umount "/mnt" true] ∧
    (loop_set_fails.unwind_umount_ok = true →
      ∀ w, run_events w
        (boot_item sample_consts loop_set_fails (sample_item "/dev/mmcblk0p1" 7 0)).2 = w) :=
  start_booting_loop_attach_fails sample_consts loop_set_fails
    (sample_item "/dev/mmcblk0p1" 7 0) (by decide) (by decide) rfl rfl rfl rfl

/-- C8, the code at the failing input: called as `main` calls it, with the
registry pointer `NULL`, `scan_devices` returns -1 when `devscan_open` fails
and leaves the registry pointer `NULL`, the registry it created being
dropped; when the mount of the configuration partition fails it returns 0 and
hands over the created registry, which is empty. -/
theorem scan_devices_early_exits :
    params_before_scan.bootcfg = none ∧
    scan_devices sample_consts open_fails params_before_scan
      = (-1, params_before_scan, []) ∧
    (scan_devices sample_consts open_fails params_before_scan).2.1.bootcfg = none ∧
    scan_devices sample_consts mount_fails params_before_scan
      = (0, { params_before_scan with bootcfg := some (create_bootcfg 4) },
          [event.mkdir "/mnt", event.mkdir "/newroot",
            event.mount "/dev/mmcblk0p9" "/mnt" "ext4" false]) ∧
    (create_bootcfg 4).fill = 0 := by
  decide


/-! ## Properties of the menu context -/

/-- C10, the code at the failing input: with no device item on the top level
and the system level current, a Timeout is not answered with "continue": the
handler looks at the number of items of the system level, returns 0 with the
Rescan entry of that level as current item, and the event loop returns the id
of that entry, which is below `A_DEVICES`, so that `main` has nothing to boot
for it. -/
theorem timeout_in_submenu_selects :
    params_in_sys.menu.top.list.length = 1 ∧
    params_in_sys.menu.current = some level_ref.sys ∧
    process_ctx_menu sample_consts sample_env params_in_sys sample_consts.A_TIMEOUT
      = handler_result.ret 0
          { params_in_sys with
            menu := { params_in_sys.menu with
              sys := { params_in_sys.menu.sys with current_no := 1 } } } ∧
    (do_main_loop sample_consts [(sample_consts.A_TIMEOUT, sample_env)] params_in_sys
        { current_line_no := 0, rows_fill := 0 }).1
      = loop_result.returned sample_consts.A_RESCAN ∧
    sample_consts.A_RESCAN < sample_consts.A_DEVICES := by
  decide

/-- Reading a level back after storing it. -/
theorem level_set_level (m : kx_menu) (r : level_ref) (ml : kx_menu_level) :
    (m.set_level r ml).level r = ml := by
  cases r <;> rfl

/-- Storing a level does not move the pointer to the current level. -/
theorem current_set_level (m : kx_menu) (r : level_ref) (ml : kx_menu_level) :
    (m.set_level r ml).current = m.current := by
  cases r <;> rfl

/-- Storing a level twice keeps the second. -/
theorem set_level_set_level (m : kx_menu) (r : level_ref) (a b : kx_menu_level) :
    (m.set_level r a).set_level r b = m.set_level r b := by
  cases r <;> rfl

/-- What `process_ctx_menu` does with a Timeout when the timeout is compiled
in: it looks at the number of items of the current level only. -/
theorem process_timeout (K : kx_consts) (E : menu_env) (params : params_t) (r : level_ref)
    (hT : K.USE_TIMEOUT = true) (hE : enum_ok K) (hcur : params.menu.current = some r) :
    process_ctx_menu K E params K.A_TIMEOUT =
      if (params.menu.level r).count > 1 then
        handler_result.ret 0
          { params with
            menu := params.menu.set_level r { (params.menu.level r) with current_no := 1 } }
      else handler_result.ret 1 params := by
  obtain ⟨hnd, hkeys⟩ := hE
  have hk := hkeys K.A_TIMEOUT (by simp [action_labels])
  have ne : ∀ (i : Nat) (a : Int), i < 12 → (action_labels K)[i]? = some a →
      K.A_TIMEOUT ≠ a := by
    intro i a hi ha e
    have h12 : (action_labels K)[12]? = some a := by rw [← e]; rfl
    have := (List.getElem?_inj (by simp [action_labels]; omega) hnd (ha.trans h12.symm))
    omega
  have hnum : (K.USE_NUMKEYS && decide (K.A_TIMEOUT ≥ K.A_KEY0)
      && decide (K.A_TIMEOUT ≤ K.A_KEY9)) = false := by
    rcases hk with hk | hk
    · have : decide (K.A_TIMEOUT ≥ K.A_KEY0) = false := by simp; omega
      simp [this]
    · have : decide (K.A_TIMEOUT ≤ K.A_KEY9) = false := by simp; omega
      simp [this]
  unfold process_ctx_menu
  rw [hnum]
  simp only [Bool.false_eq_true, if_false]
  rw [if_neg (Ne.symm (ne 5 K.A_SELECT (by omega) rfl))]
  unfold menu_switch
  rw [if_neg (ne 3 K.A_UP (by omega) rfl), if_neg (ne 4 K.A_DOWN (by omega) rfl),
    if_neg (ne 6 K.A_SUBMENU (by omega) rfl), if_neg (ne 7 K.A_PARENTMENU (by omega) rfl),
    if_neg (ne 8 K.A_REBOOT (by omega) rfl), if_neg (ne 9 K.A_SHUTDOWN (by omega) rfl),
    if_neg (ne 10 K.A_RESCAN (by omega) rfl), if_neg (ne 11 K.A_DEBUG (by omega) rfl),
    if_neg (ne 1 K.A_EXIT (by omega) rfl), if_neg (ne 0 K.A_ERROR (by omega) rfl)]
  simp only [hT, decide_True, Bool.and_self, if_true, hcur]
  by_cases hc : (params.menu.level r).count > 1
  · have hc2 : 0 + 1 < (params.menu.level r).count := by omega
    simp [hc, hc2, menu_item_select, hcur, level_set_level, current_set_level,
      set_level_set_level, kx_menu_level.count] at *
    simp [hc2]
  · simp [hc]


/-- With the top level current and the timeout compiled in: a Timeout
delivered while the top level holds the System entry and exactly one device
entry yields "selected" (handler result 0) with the device entry as current
item, so that the event loop returns its id; delivered while the top level
holds at most one entry (no device entry) it yields "continue" (handler
result 1) and changes nothing. -/
theorem timeout_at_top_level (K : kx_consts) (E : menu_env) (params : params_t) (lg : log_t)
    (hT : K.USE_TIMEOUT = true) (hE : enum_ok K)
    (hcur : params.menu.current = some level_ref.top) :
    (∀ first dev, params.menu.top.list = [first, dev] →
      ∃ p, process_ctx_menu K E params K.A_TIMEOUT = handler_result.ret 0 p ∧
        p.menu.current = some level_ref.top ∧ p.menu.top.current = some dev ∧
        (do_main_loop K [(K.A_TIMEOUT, E)] params lg).1 = loop_result.returned dev.id) ∧
    (params.menu.top.count ≤ 1 →
      process_ctx_menu K E params K.A_TIMEOUT = handler_result.ret 1 params) := by
  have hp := process_timeout K E params level_ref.top hT hE hcur
  refine ⟨?_, ?_⟩
  · intro first dev hl
    have hl2 : (params.menu.level level_ref.top).list = [first, dev] := hl
    have hc : (params.menu.level level_ref.top).count > 1 := by
      simp [kx_menu_level.count, hl2]
    have hne : K.A_TIMEOUT ≠ K.A_NONE := by
      intro e
      have h2 : (action_labels K)[2]? = (action_labels K)[12]? := by
        show some K.A_NONE = some K.A_TIMEOUT
        rw [e]
      have := List.getElem?_inj (by simp [action_labels]) hE.1 h2
      omega
    refine ⟨_, by rw [hp, if_pos hc], ?_, ?_, ?_⟩
    · simp [current_set_level, hcur]
    · show ((params.menu.set_level level_ref.top _).level level_ref.top).current = some dev
      simp [level_set_level, kx_menu_level.current, hl2]
    · have hp2 := process_timeout K E { params with context := kx_context.KX_CTX_MENU }
        level_ref.top hT hE hcur
      have hc2 : ({ params with context := kx_context.KX_CTX_MENU } : params_t).menu.level
          level_ref.top = params.menu.level level_ref.top := rfl
      rw [hc2, if_pos hc] at hp2
      simp [do_main_loop, main_loop, hne, hp2, current_id, current_set_level, hcur,
        level_set_level, kx_menu_level.current, hl2]
  · intro hc
    have hc2 : ¬ (params.menu.level level_ref.top).count > 1 := by
      show ¬ params.menu.top.count > 1
      omega
    rw [hp, if_neg hc2]

/-- A Timeout on the top level holding the System entry and one device
entry: the device entry is selected and the loop returns its id. -/
theorem timeout_at_top_level_sample :
    ∃ p, process_ctx_menu sample_consts sample_env params_one_device sample_consts.A_TIMEOUT
        = handler_result.ret 0 p ∧
      p.menu.current = some level_ref.top ∧
      p.menu.top.current
        = some (device_entry sample_consts
            (sample_bootcfg [sample_item "/dev/mmcblk0p1" 5 0]) 0) ∧
      (do_main_loop sample_consts [(sample_consts.A_TIMEOUT, sample_env)] params_one_device
          { current_line_no := 0, rows_fill := 0 }).1
        = loop_result.returned
            (device_entry sample_consts
              (sample_bootcfg [sample_item "/dev/mmcblk0p1" 5 0]) 0).id :=
  (timeout_at_top_level sample_consts sample_env params_one_device
    { current_line_no := 0, rows_fill := 0 } rfl (by decide) rfl).1
    { id := sample_consts.A_SUBMENU, label := "System menu", description := none,
      submenu := some level_ref.sys }
    (device_entry sample_consts (sample_bootcfg [sample_item "/dev/mmcblk0p1" 5 0]) 0) rfl


/-! ## Properties of the buffer sizes -/

/-- The size computed for the `--command-line=` buffer is the length of the
text written into it plus the length of the active command line. -/
theorem cmdline_size_eq (K : kx_consts) (item : boot_item_t) (c : String) :
    cmdline_size K item c = (cmdline_text K item c).length + c.length := by
  have h1 : "--command-line=".length = 15 := by decide
  have h2 : "\"".length = 1 := by decide
  have h3 : " partition=".length = 11 := by decide
  have h4 : " image=".length = 7 := by decide
  have h5 : " directory=".length = 11 := by decide
  unfold cmdline_size cmdline_text
  cases has_flag item.boottype K.BOOT_TYPE_IMAGE <;>
    simp only [String.length_append, if_true, if_false, Bool.false_eq_true, h1, h2, h3, h4,
      h5] <;>
    omega

/-- C14, the code where it fails: for an empty active command line the size
computed for the `--command-line=` buffer is exactly the length of the text
written into it, so the terminator has no room; this holds for every item,
for one with device `/dev/mmcblk0p1` and directory `/boot` the size is 58 and
the text is 58 characters long. The size computed for the `--initrd=` buffer
is always the written length plus one. -/
theorem cmdline_buffer_one_short :
    (∀ (K : kx_consts) (item : boot_item_t),
      cmdline_size K item "" = (cmdline_text K item "").length) ∧
    cmdline_size sample_consts (sample_item "/dev/mmcblk0p1" 5 0) "" = 58 ∧
    (cmdline_text sample_consts (sample_item "/dev/mmcblk0p1" 5 0) "").length = 58 ∧
    ¬ (cmdline_size sample_consts (sample_item "/dev/mmcblk0p1" 5 0) ""
        ≥ (cmdline_text sample_consts (sample_item "/dev/mmcblk0p1" 5 0) "").length + 1) ∧
    (∀ (K : kx_consts) (item : boot_item_t) (c : String), c ≠ "" →
      cmdline_size K item c ≥ (cmdline_text K item c).length + 1) ∧
    (∀ i : String, initrd_size i = ("--initrd=" ++ i).length + 1) := by
  refine ⟨?_, by decide, by decide, by decide, ?_, ?_⟩
  · intro K item
    rw [cmdline_size_eq]
    rfl
  · intro K item c hc
    rw [cmdline_size_eq]
    have : c.length ≠ 0 := by
      intro h
      apply hc
      obtain ⟨data⟩ := c
      have hd : data = [] := List.length_eq_zero.mp h
      rw [hd]
    omega
  · intro i
    rw [initrd_size, String.length_append]
    omega


/-! ## Properties of the menu actions -/

/-- Two action constants at different positions of `action_labels` differ. -/
theorem labels_ne (K : kx_consts) (hE : enum_ok K) (i j : Nat) (a b : Int)
    (ha : (action_labels K)[i]? = some a) (hb : (action_labels K)[j]? = some b)
    (hij : i ≠ j) : a ≠ b := by
  intro e
  subst e
  obtain ⟨hi, _⟩ := List.getElem?_eq_some.mp ha
  exact hij (List.getElem?_inj hi hE.1 (ha.trans hb.symm))

/-- An action constant is not taken for a digit key. -/
theorem label_not_key (K : kx_consts) (hE : enum_ok K) (i : Nat) (a : Int)
    (ha : (action_labels K)[i]? = some a) :
    (K.USE_NUMKEYS && decide (a ≥ K.A_KEY0) && decide (a ≤ K.A_KEY9)) = false := by
  obtain ⟨hi, hget⟩ := List.getElem?_eq_some.mp ha
  have hmem : a ∈ action_labels K := by
    rw [← hget]
    exact List.getElem_mem _
  rcases hE.2 a hmem with hk | hk
  · have : decide (a ≥ K.A_KEY0) = false := by simp; omega
    simp [this]
  · have : decide (a ≤ K.A_KEY9) = false := by simp; omega
    simp [this]

/-- What `process_ctx_menu` does with the action `A_PARENTMENU`: it stores the
parent pointer of the current level as current level and returns 1. -/
theorem process_parentmenu (K : kx_consts) (E : menu_env) (params : params_t)
    (hE : enum_ok K) :
    process_ctx_menu K E params K.A_PARENTMENU =
      match params.menu.current with
      | none => handler_result.undefined
      | some r =>
        handler_result.ret 1
          { params with menu := { params.menu with current := (params.menu.level r).parent } } := by
  unfold process_ctx_menu
  rw [label_not_key K hE 7 K.A_PARENTMENU rfl]
  simp only [Bool.false_eq_true, if_false]
  rw [if_neg (labels_ne K hE 5 7 K.A_SELECT K.A_PARENTMENU rfl rfl (by decide))]
  unfold menu_switch
  rw [if_neg (labels_ne K hE 7 3 K.A_PARENTMENU K.A_UP rfl rfl (by decide)),
    if_neg (labels_ne K hE 7 4 K.A_PARENTMENU K.A_DOWN rfl rfl (by decide)),
    if_neg (labels_ne K hE 7 6 K.A_PARENTMENU K.A_SUBMENU rfl rfl (by decide))]
  simp only [if_true]

/-- What `process_ctx_menu` does with the action `A_RESCAN`: it runs
`do_rescan` and returns -1 when that returned -1, and 1 otherwise. -/
theorem process_rescan (K : kx_consts) (E : menu_env) (params : params_t)
    (hE : enum_ok K) :
    process_ctx_menu K E params K.A_RESCAN =
      match do_rescan K E params with
      | none => handler_result.undefined
      | some (rc, p) => if rc = -1 then handler_result.ret (-1) p else handler_result.ret 1 p := by
  unfold process_ctx_menu
  rw [label_not_key K hE 10 K.A_RESCAN rfl]
  simp only [Bool.false_eq_true, if_false]
  rw [if_neg (labels_ne K hE 5 10 K.A_SELECT K.A_RESCAN rfl rfl (by decide))]
  unfold menu_switch
  rw [if_neg (labels_ne K hE 10 3 K.A_RESCAN K.A_UP rfl rfl (by decide)),
    if_neg (labels_ne K hE 10 4 K.A_RESCAN K.A_DOWN rfl rfl (by decide)),
    if_neg (labels_ne K hE 10 6 K.A_RESCAN K.A_SUBMENU rfl rfl (by decide)),
    if_neg (labels_ne K hE 10 7 K.A_RESCAN K.A_PARENTMENU rfl rfl (by decide)),
    if_neg (labels_ne K hE 10 8 K.A_RESCAN K.A_REBOOT rfl rfl (by decide)),
    if_neg (labels_ne K hE 10 9 K.A_RESCAN K.A_SHUTDOWN rfl rfl (by decide))]
  simp only [if_true]

/-- C13 as stated fails: on the top level the action `A_PARENTMENU` is
neither a no-op nor an error: the handler returns 1 and the pointer to the
current level is `NULL` afterwards; the next action that moves the selection
then reads through that pointer. -/
theorem parentmenu_at_top_clears_current :
    (sample_params []).menu.current = some level_ref.top ∧
    process_ctx_menu sample_consts sample_env (sample_params []) sample_consts.A_PARENTMENU
      = handler_result.ret 1
          { sample_params [] with menu := { sample_menu with current := none } } ∧
    (do_main_loop sample_consts
        [(sample_consts.A_PARENTMENU, sample_env), (sample_consts.A_UP, sample_env)]
        (sample_params []) { current_line_no := 0, rows_fill := 0 }).1
      = loop_result.undefined := by
  decide

/-- C13, amended: in the Menu context the action `A_PARENTMENU` stores the
parent pointer of the current level as the current level and yields
"continue" (handler result 1), with nothing else changed. When a parent
exists the current level becomes that parent; from the system level that
`build_menu` builds this is the top level. When the current level has no
parent, as the top level that `build_menu` builds, the pointer to the current
level is `NULL` afterwards. In the menu of `build_menu` the entry with the id
`A_PARENTMENU` is on the system level only. -/
theorem parentmenu_action (K : kx_consts) (E : menu_env) (params : params_t) (r : level_ref)
    (hE : enum_ok K) (hcur : params.menu.current = some r) :
    process_ctx_menu K E params K.A_PARENTMENU =
        handler_result.ret 1
          { params with menu := { params.menu with current := (params.menu.level r).parent } } ∧
    (∀ m, build_menu K true true = some m →
      m.current = some level_ref.top ∧
      (m.level level_ref.top).parent = none ∧
      (m.level level_ref.sys).parent = some level_ref.top ∧
      m.top.list.map (fun e => e.id) = [K.A_SUBMENU] ∧
      (m.sys.list.map (fun e => e.id)).head? = some K.A_PARENTMENU) := by
  constructor
  · rw [process_parentmenu K E params hE, hcur]
  · intro m hm
    unfold build_menu at hm
    simp only [Bool.not_true, Bool.false_eq_true, if_false, menu_item_select, menu_item_add,
      kx_menu.level, kx_menu.set_level, Option.some.injEq] at hm
    subst hm
    cases K.initmode <;> simp [kx_menu.level]

/-- Sample for C13: in the sample menu with the system level current, the
action `A_PARENTMENU` makes the top level the current one. -/
theorem parentmenu_action_witness :
    process_ctx_menu sample_consts sample_env params_in_sys sample_consts.A_PARENTMENU =
      handler_result.ret 1
        { params_in_sys with menu := { params_in_sys.menu with current := some level_ref.top } } :=
  (parentmenu_action sample_consts sample_env params_in_sys level_ref.sys (by decide) rfl).1


/-! ## Properties of the rescan -/

/-- The function `scan_devices` leaves the menu and the context alone. -/
theorem scan_devices_menu (K : kx_consts) (S : scan_outcomes) (params : params_t) :
    (scan_devices K S params).2.1.menu = params.menu ∧
    (scan_devices K S params).2.1.context = params.context := by
  unfold scan_devices
  cases S.create_ok <;> cases S.devscan_open_ok <;> cases S.mount_ok <;>
    cases S.umount_ok <;> simp

/-- The return code of `fill_menu` is 0 or -1, and it is -1 exactly when the
registry holds an item and one of the two allocations fails. -/
theorem fill_menu_rc (K : kx_consts) (desc_ok a_ok : Bool) (params : params_t)
    (rc : Int) (p : params_t) (h : fill_menu K desc_ok a_ok params = some (rc, p)) :
    (rc = 0 ∨ rc = -1) ∧
    (rc = -1 ↔ ∃ bl, params.bootcfg = some bl ∧ 0 < bl.fill ∧
      (desc_ok = false ∨ a_ok = false)) := by
  unfold fill_menu at h
  cases hb : params.bootcfg with
  | none =>
    simp [hb] at h
    obtain ⟨h1, _⟩ := h
    subst h1
    simp
  | some bl =>
    by_cases hf : bl.fill > 0
    · cases desc_ok
      · simp [hb, hf] at h
        obtain ⟨h1, _⟩ := h
        subst h1
        simp [hf]
      · cases a_ok
        · simp [hb, hf] at h
          obtain ⟨h1, _⟩ := h
          subst h1
          simp [hf]
        · simp only [hb, hf, if_true, Bool.not_true, Bool.false_eq_true, if_false] at h
          cases hl : fill_loop K bl bl.fill (bl.fill + 1) (List.replicate bl.fill 0) (-1)
              params.menu.top with
          | none => simp [hl] at h
          | some top =>
            simp [hl] at h
            obtain ⟨h1, _⟩ := h
            subst h1
            simp
    · simp [hb, hf] at h
      obtain ⟨h1, _⟩ := h
      subst h1
      simp
      intro h3
      exact absurd h3 hf

/-- With no negative priority, `fill_menu` adds as many entries as the
registry holds items. -/
theorem fill_menu_added_count (K : kx_consts) (params p : params_t) (bl : bootconf_t)
    (hbl : params.bootcfg = some bl) (hnn : ∀ t, t ∈ bl.list → 0 ≤ t.priority)
    (h : fill_menu K true true params = some (0, p)) :
    p.menu.top.list.length = params.menu.top.list.length + bl.fill := by
  obtain ⟨rc, idxs, h1, h2, h3, h4⟩ := fill_menu_spec K true true params bl hbl
  obtain ⟨_, hall⟩ := h4 rfl rfl
  have hnd : idxs.Nodup := by
    refine List.Pairwise.imp ?_ h3
    intro x y hxy e
    unfold placed_before at hxy
    subst e
    omega
  have hperm : idxs.Perm (List.range bl.fill) := by
    rw [List.perm_ext_iff_of_nodup hnd (List.nodup_range _)]
    intro x
    rw [List.mem_range]
    constructor
    · intro hx
      exact (h2 x hx).1
    · intro hx
      obtain ⟨t, ht, hp⟩ := prio_mem bl x hx
      exact hall x hx (by rw [← hp]; exact hnn t ht)
  rw [h1] at h
  simp only [Option.some.injEq, Prod.mk.injEq] at h
  rw [← h.2]
  simp [with_top_list, hperm.length_eq]

/-- C12 as stated fails: the registry holds two items, of priorities -5 and
3, and the menu that `fill_menu` built from it holds one device entry; the
rescan frees that one entry, one fewer than the `fill` of the previous
registry. -/
theorem rescan_frees_fewer_than_fill :
    fill_menu sample_consts true true (sample_params items_one_negative)
      = some (0, params_one_of_two) ∧
    params_one_of_two.bootcfg = some (sample_bootcfg items_one_negative) ∧
    (sample_bootcfg items_one_negative).fill = 2 ∧
    (rescan_freed params_one_of_two).length = 1 := by
  refine ⟨?_, by decide, by decide, by decide⟩
  set_option maxRecDepth 100000 in decide


/-- C12, amended: a rescan (`do_rescan`) frees every top-level entry after the
first, and hands `scan_devices` and `fill_menu` a state without registry and
with the System entry as only top-level entry, so every release precedes
every insertion. The number of freed entries is the number of device entries
of the top level; it equals the previous registry's `fill` when the menu was
built by `fill_menu` from a registry without negative priority. Afterwards
the System entry is still at position 0, followed only by entries that
`fill_menu` builds from the newly scanned registry. `do_rescan` returns -1
exactly when that rebuild fails (an allocation fails while the new registry
holds an item), and the Menu handler then returns -1; otherwise the handler
returns 1. -/
theorem do_rescan_rebuilds (K : kx_consts) (E : menu_env) (params : params_t)
    (first : kx_menu_item) (rest : List kx_menu_item)
    (hE : enum_ok K) (htop : params.menu.top.list = first :: rest) :
    rescan_freed params = rest ∧
    (rescan_freed params).length = params.menu.top.count - 1 ∧
    (rescan_cleared params).menu.top.list = [first] ∧
    (rescan_cleared params).bootcfg = none ∧
    do_rescan K E params
      = fill_menu K E.desc_ok E.a_ok (scan_devices K E.scan (rescan_cleared params)).2.1 ∧
    (∃ (rc : Int) (p : params_t) (new : List kx_menu_item),
      do_rescan K E params = some (rc, p) ∧
      p.bootcfg = (scan_devices K E.scan (rescan_cleared params)).2.1.bootcfg ∧
      p.menu.top.list = first :: new ∧
      (∀ e, e ∈ new → ∃ bl i, p.bootcfg = some bl ∧ i < bl.fill ∧ e = device_entry K bl i) ∧
      (rc = 0 ∨ rc = -1) ∧
      (rc = -1 ↔ ∃ bl, p.bootcfg = some bl ∧ 0 < bl.fill ∧
        (E.desc_ok = false ∨ E.a_ok = false)) ∧
      process_ctx_menu K E params K.A_RESCAN =
        (if rc = -1 then handler_result.ret (-1) p else handler_result.ret 1 p)) ∧
    (∀ (p0 : params_t) (bl : bootconf_t), p0.bootcfg = some bl →
      p0.menu.top.list = [first] → (∀ t, t ∈ bl.list → 0 ≤ t.priority) →
      fill_menu K true true p0 = some (0, params) →
      (rescan_freed params).length = bl.fill) := by
  have hdo : do_rescan K E params
      = fill_menu K E.desc_ok E.a_ok (scan_devices K E.scan (rescan_cleared params)).2.1 := rfl
  have hcl : (rescan_cleared params).menu.top.list = [first] := by
    simp [rescan_cleared, htop]
  refine ⟨by simp [rescan_freed, htop], by simp [rescan_freed, kx_menu_level.count, htop],
    hcl, rfl, hdo, ?_, ?_⟩
  · obtain ⟨hm, _⟩ := scan_devices_menu K E.scan (rescan_cleared params)
    generalize (scan_devices K E.scan (rescan_cleared params)).2.1 = p3 at hdo hm
    have h3 : p3.menu.top.list = [first] := by rw [hm, hcl]
    cases hb : p3.bootcfg with
    | none =>
      have hf : fill_menu K E.desc_ok E.a_ok p3 = some (0, p3) := by
        simp [fill_menu, hb]
      refine ⟨0, p3, [], by rw [hdo, hf], hb, h3, ?_, Or.inl rfl, ?_, ?_⟩
      · intro e he
        exact absurd he (List.not_mem_nil e)
      · simp [hb]
      · rw [process_rescan K E params hE, hdo, hf]
    | some bl =>
      obtain ⟨rc, idxs, h1, h2, _, _⟩ := fill_menu_spec K E.desc_ok E.a_ok p3 bl hb
      obtain ⟨hrc1, hrc2⟩ := fill_menu_rc K E.desc_ok E.a_ok p3 rc _ h1
      refine ⟨rc, with_top_list p3 (p3.menu.top.list ++ List.map (device_entry K bl) idxs),
        idxs.map (device_entry K bl), by rw [hdo, h1], hb, ?_, ?_, hrc1, ?_, ?_⟩
      · simp [with_top_list, h3]
      · intro e he
        obtain ⟨i, hi, rfl⟩ := List.mem_map.mp he
        exact ⟨bl, i, hb, (h2 i hi).1, rfl⟩
      · rw [hrc2]
        rfl
      · rw [process_rescan K E params hE, hdo, h1]
  · intro p0 bl hb h0 hnn hf
    have hlen := fill_menu_added_count K p0 params bl hb hnn hf
    simp [rescan_freed, htop, h0] at hlen ⊢
    omega

/-- Sample for C12: the top level holds the System entry and one device
entry, and the scan imports one item. -/
theorem do_rescan_rebuilds_witness :
    rescan_freed params_one_device
      = [device_entry sample_consts (sample_bootcfg [sample_item "/dev/mmcblk0p1" 5 0]) 0] ∧
    (rescan_freed params_one_device).length = params_one_device.menu.top.count - 1 ∧
    (rescan_cleared params_one_device).menu.top.list
      = [{ id := sample_consts.A_SUBMENU, label := "System menu", description := none,
           submenu := some level_ref.sys }] ∧
    (rescan_cleared params_one_device).bootcfg = none :=
  have h := do_rescan_rebuilds sample_consts rescan_env params_one_device
    { id := sample_consts.A_SUBMENU, label := "System menu", description := none,
      submenu := some level_ref.sys }
    [device_entry sample_consts (sample_bootcfg [sample_item "/dev/mmcblk0p1" 5 0]) 0]
    (by decide) rfl
  ⟨h.1, h.2.1, h.2.2.1, h.2.2.2.1⟩


/-! ## Properties of the main loop -/

/-- The loop passes over an action that is `A_NONE`. -/
theorem main_loop_none (K : kx_consts) (E : menu_env) (rest : List (Int × menu_env))
    (p : params_t) (lg : log_t) (tr : List loop_event) :
    main_loop K ((K.A_NONE, E) :: rest) p lg tr = main_loop K rest p lg tr := by
  simp [main_loop]

/-- One round of the loop on an action other than `A_NONE`, by the outcome of
the handler. -/
theorem main_loop_step (K : kx_consts) (a : Int) (E : menu_env)
    (rest : List (Int × menu_env)) (p : params_t) (lg : log_t) (tr : List loop_event)
    (ha : a ≠ K.A_NONE) :
    main_loop K ((a, E) :: rest) p lg tr =
      match (handle K E p lg a).1 with
      | handler_result.undefined =>
        (loop_result.undefined, p, (handle K E p lg a).2,
          tr ++ [loop_event.dispatch p.context a])
      | handler_result.halted =>
        (loop_result.halted, p, (handle K E p lg a).2,
          tr ++ [loop_event.dispatch p.context a])
      | handler_result.ret rc p1 =>
        if rc > 0 then
          main_loop K rest p1 (handle K E p lg a).2
            (tr ++ [loop_event.dispatch p.context a] ++ [loop_event.draw p1.context])
        else if rc = 0 then
          match current_id p1.menu with
          | none => (loop_result.undefined, p1, (handle K E p lg a).2,
              tr ++ [loop_event.dispatch p.context a])
          | some id => (loop_result.returned id, p1, (handle K E p lg a).2,
              tr ++ [loop_event.dispatch p.context a])
        else (loop_result.returned rc, p1, (handle K E p lg a).2,
          tr ++ [loop_event.dispatch p.context a]) := by
  rw [main_loop]
  simp only [ne_eq, ha, not_false_eq_true, if_true]
  unfold handle
  cases p.context <;> rfl


/-- Moving the selection of a level keeps the ids of the items. -/
theorem ids_set_current_no (m : kx_menu) (r : level_ref) (n : Nat) (h : ids_nonneg m) :
    ids_nonneg (m.set_level r { (m.level r) with current_no := n }) := by
  cases r <;> exact h

/-- The function `menu_item_select` keeps the ids of the items. -/
theorem menu_item_select_ids (m m2 : kx_menu) (d : Int)
    (hs : menu_item_select m d = some m2) (h : ids_nonneg m) : ids_nonneg m2 := by
  unfold menu_item_select at hs
  cases hc : m.current with
  | none => simp [hc] at hs
  | some r =>
    simp only [hc, Option.some.injEq] at hs
    rw [← hs]
    exact ids_set_current_no m r _ h

/-- The function `menu_item_select_by_no` keeps the ids of the items. -/
theorem menu_item_select_by_no_ids (m m2 : kx_menu) (no rc : Int)
    (hs : menu_item_select_by_no m no = some (rc, m2)) (h : ids_nonneg m) :
    ids_nonneg m2 := by
  unfold menu_item_select_by_no at hs
  cases hc : m.current with
  | none => simp [hc] at hs
  | some r =>
    simp only [hc] at hs
    by_cases hn : 0 ≤ no ∧ no.toNat < (m.level r).count
    · rw [if_pos hn] at hs
      simp only [Option.some.injEq, Prod.mk.injEq] at hs
      rw [← hs.2]
      exact ids_set_current_no m r _ h
    · rw [if_neg hn] at hs
      simp only [Option.some.injEq, Prod.mk.injEq] at hs
      rw [← hs.2]
      exact h

/-- After a rescan the ids of the items are not negative, when they were not
before and `A_DEVICES` is not negative. -/
theorem do_rescan_ids (K : kx_consts) (E : menu_env) (params p : params_t) (rc : Int)
    (hA : 0 ≤ K.A_DEVICES) (hid : ids_nonneg params.menu)
    (h : do_rescan K E params = some (rc, p)) : ids_nonneg p.menu := by
  have hdo : do_rescan K E params
      = fill_menu K E.desc_ok E.a_ok (scan_devices K E.scan (rescan_cleared params)).2.1 := rfl
  rw [hdo] at h
  obtain ⟨hm, _⟩ := scan_devices_menu K E.scan (rescan_cleared params)
  generalize (scan_devices K E.scan (rescan_cleared params)).2.1 = p3 at h hm
  have h3 : ids_nonneg p3.menu := by
    rw [hm]
    refine ⟨?_, hid.2⟩
    intro e he
    exact hid.1 e (List.mem_of_mem_take he)
  cases hb : p3.bootcfg with
  | none =>
    simp [fill_menu, hb] at h
    rw [← h.2]
    exact h3
  | some bl =>
    obtain ⟨rc2, idxs, h1, _, _, _⟩ := fill_menu_spec K E.desc_ok E.a_ok p3 bl hb
    rw [h1] at h
    simp only [Option.some.injEq, Prod.mk.injEq] at h
    rw [← h.2]
    refine ⟨?_, h3.2⟩
    intro e he
    simp only [with_top_list, List.mem_append, List.mem_map] at he
    rcases he with he | ⟨i, _, rfl⟩
    · exact h3.1 e he
    · simp only [device_entry]
      omega

/-- The `switch` of `process_ctx_menu` leaves a menu whose ids are not
negative, when they were not before and `A_DEVICES` is not negative. -/
theorem menu_switch_ids (K : kx_consts) (E : menu_env) (params : params_t) (ma rc : Int)
    (p : params_t) (hA : 0 ≤ K.A_DEVICES) (hid : ids_nonneg params.menu)
    (h : menu_switch K E params ma = handler_result.ret rc p) : ids_nonneg p.menu := by
  unfold menu_switch at h
  by_cases c1 : ma = K.A_UP
  · rw [if_pos c1] at h
    cases hs : menu_item_select params.menu (-1) with
    | none => simp [hs] at h
    | some m =>
      simp only [hs, handler_result.ret.injEq] at h
      rw [← h.2]
      exact menu_item_select_ids _ _ _ hs hid
  rw [if_neg c1] at h
  by_cases c2 : ma = K.A_DOWN
  · rw [if_pos c2] at h
    cases hs : menu_item_select params.menu 1 with
    | none => simp [hs] at h
    | some m =>
      simp only [hs, handler_result.ret.injEq] at h
      rw [← h.2]
      exact menu_item_select_ids _ _ _ hs hid
  rw [if_neg c2] at h
  by_cases c3 : ma = K.A_SUBMENU
  · rw [if_pos c3] at h
    cases hc : params.menu.current with
    | none => simp [hc] at h
    | some r =>
      cases hi : (params.menu.level r).current with
      | none => simp [hc, hi] at h
      | some mi =>
        simp only [hc, hi, handler_result.ret.injEq] at h
        rw [← h.2]
        exact hid
  rw [if_neg c3] at h
  by_cases c4 : ma = K.A_PARENTMENU
  · rw [if_pos c4] at h
    cases hc : params.menu.current with
    | none => simp [hc] at h
    | some r =>
      simp only [hc, handler_result.ret.injEq] at h
      rw [← h.2]
      exact hid
  rw [if_neg c4] at h
  by_cases c5 : ma = K.A_REBOOT
  · rw [if_pos c5] at h
    by_cases hr : (!K.USE_HOST_DEBUG && E.reboot_ok) = true
    · rw [if_pos hr] at h
      exact absurd h (by simp)
    · rw [if_neg hr] at h
      simp only [handler_result.ret.injEq] at h
      rw [← h.2]
      exact hid
  rw [if_neg c5] at h
  by_cases c6 : ma = K.A_SHUTDOWN
  · rw [if_pos c6] at h
    by_cases hr : (!K.USE_HOST_DEBUG && E.reboot_ok) = true
    · rw [if_pos hr] at h
      exact absurd h (by simp)
    · rw [if_neg hr] at h
      simp only [handler_result.ret.injEq] at h
      rw [← h.2]
      exact hid
  rw [if_neg c6] at h
  by_cases c7 : ma = K.A_RESCAN
  · rw [if_pos c7] at h
    cases hd : do_rescan K E params with
    | none => simp [hd] at h
    | some r =>
      obtain ⟨rc2, p2⟩ := r
      have hp2 := do_rescan_ids K E params p2 rc2 hA hid hd
      simp only [hd] at h
      by_cases hrc : rc2 = -1
      · rw [if_pos hrc] at h
        simp only [handler_result.ret.injEq] at h
        rw [← h.2]
        exact hp2
      · rw [if_neg hrc] at h
        simp only [handler_result.ret.injEq] at h
        rw [← h.2]
        exact hp2
  rw [if_neg c7] at h
  by_cases c8 : ma = K.A_DEBUG
  · rw [if_pos c8] at h
    simp only [handler_result.ret.injEq] at h
    rw [← h.2]
    exact hid
  rw [if_neg c8] at h
  by_cases c9 : ma = K.A_EXIT
  · rw [if_pos c9] at h
    by_cases hi : K.initmode = true
    · rw [if_pos hi] at h
      simp only [handler_result.ret.injEq] at h
      rw [← h.2]
      exact hid
    · rw [if_neg hi] at h
      simp only [handler_result.ret.injEq] at h
      rw [← h.2]
      exact hid
  rw [if_neg c9] at h
  by_cases c10 : ma = K.A_ERROR
  · rw [if_pos c10] at h
    simp only [handler_result.ret.injEq] at h
    rw [← h.2]
    exact hid
  rw [if_neg c10] at h
  by_cases c11 : (K.USE_TIMEOUT && decide (ma = K.A_TIMEOUT)) = true
  · rw [if_pos c11] at h
    cases hc : params.menu.current with
    | none => simp [hc] at h
    | some r =>
      simp only [hc] at h
      by_cases hn : (params.menu.level r).count > 1
      · rw [if_pos hn] at h
        cases hs0 : menu_item_select params.menu 0 with
        | none => simp [hs0] at h
        | some m0 =>
          cases hs1 : menu_item_select m0 1 with
          | none => simp [hs0, hs1] at h
          | some m1 =>
            simp only [hs0, hs1, handler_result.ret.injEq] at h
            rw [← h.2]
            exact menu_item_select_ids _ _ _ hs1 (menu_item_select_ids _ _ _ hs0 hid)
      · rw [if_neg hn] at h
        simp only [handler_result.ret.injEq] at h
        rw [← h.2]
        exact hid
  rw [if_neg c11] at h
  by_cases c12 : ma ≥ K.A_DEVICES
  · rw [if_pos c12] at h
    simp only [handler_result.ret.injEq] at h
    rw [← h.2]
    exact hid
  · rw [if_neg c12] at h
    simp only [handler_result.ret.injEq] at h
    rw [← h.2]
    exact hid


/-- The function `process_ctx_menu` leaves a menu whose ids are not negative,
when they were not before and `A_DEVICES` is not negative. -/
theorem process_ctx_menu_ids (K : kx_consts) (E : menu_env) (params : params_t)
    (action rc : Int) (p : params_t) (hA : 0 ≤ K.A_DEVICES) (hid : ids_nonneg params.menu)
    (h : process_ctx_menu K E params action = handler_result.ret rc p) :
    ids_nonneg p.menu := by
  unfold process_ctx_menu at h
  by_cases c1 : (K.USE_NUMKEYS && decide (action ≥ K.A_KEY0) && decide (action ≤ K.A_KEY9)) = true
  · rw [if_pos c1] at h
    cases hs : menu_item_select_by_no params.menu (action - K.A_KEY0) with
    | none => simp [hs] at h
    | some r =>
      obtain ⟨rc2, m⟩ := r
      have hm := menu_item_select_by_no_ids _ _ _ _ hs hid
      simp only [hs] at h
      by_cases hrc : rc2 = -1
      · rw [if_pos hrc] at h
        simp only [handler_result.ret.injEq] at h
        rw [← h.2]
        exact hm
      · rw [if_neg hrc] at h
        cases hc : current_id m with
        | none => simp [hc] at h
        | some id =>
          simp only [hc] at h
          exact menu_switch_ids K E { params with menu := m } id rc p hA hm h
  · rw [if_neg c1] at h
    by_cases c2 : K.A_SELECT = action
    · rw [if_pos c2] at h
      cases hc : current_id params.menu with
      | none => simp [hc] at h
      | some id =>
        simp only [hc] at h
        exact menu_switch_ids K E params id rc p hA hid h
    · rw [if_neg c2] at h
      exact menu_switch_ids K E params action rc p hA hid h

/-- The function `process_ctx_textview` leaves the menu alone. -/
theorem process_ctx_textview_menu (K : kx_consts) (params : params_t) (lg : log_t)
    (action : Int) : (process_ctx_textview K params lg action).2.1.menu = params.menu := by
  unfold process_ctx_textview
  by_cases c1 : action = K.A_UP
  · rw [if_pos c1]
  rw [if_neg c1]
  by_cases c2 : action = K.A_DOWN
  · rw [if_pos c2]
  rw [if_neg c2]
  by_cases c3 : action = K.A_SELECT
  · rw [if_pos c3]
  rw [if_neg c3]
  by_cases c4 : action = K.A_EXIT
  · rw [if_pos c4]
    by_cases hi : K.initmode = true
    · rw [if_pos hi]
    · rw [if_neg hi]
  rw [if_neg c4]
  by_cases c5 : action = K.A_ERROR
  · rw [if_pos c5]
  · rw [if_neg c5]

/-- A handler call leaves a menu whose ids are not negative, when they were
not before and `A_DEVICES` is not negative. -/
theorem handle_ids (K : kx_consts) (E : menu_env) (params : params_t) (lg : log_t)
    (action rc : Int) (p : params_t) (hA : 0 ≤ K.A_DEVICES) (hid : ids_nonneg params.menu)
    (h : (handle K E params lg action).1 = handler_result.ret rc p) : ids_nonneg p.menu := by
  unfold handle at h
  cases hc : params.context with
  | KX_CTX_MENU =>
    simp only [hc] at h
    exact process_ctx_menu_ids K E params action rc p hA hid h
  | KX_CTX_TEXTVIEW =>
    simp only [hc, handler_result.ret.injEq] at h
    rw [← h.2, process_ctx_textview_menu]
    exact hid

/-- The id of the current item is the id of an item of the menu. -/
theorem current_id_nonneg (m : kx_menu) (id : Int) (hid : ids_nonneg m)
    (h : current_id m = some id) : 0 ≤ id := by
  unfold current_id at h
  cases hc : m.current with
  | none => simp [hc] at h
  | some r =>
    cases hi : (m.level r).current with
    | none => simp [hc, hi] at h
    | some mi =>
      simp only [hc, hi, Option.some.injEq] at h
      rw [← h]
      have hmem : mi ∈ (m.level r).list := by
        unfold kx_menu_level.current at hi
        exact List.getElem?_mem hi
      cases r
      · exact hid.1 mi hmem
      · exact hid.2 mi hmem


/-- The protocol of the loop of `do_main_loop`, from any state: what it adds
to the trace, which actions it hands to a handler, the shape of the rounds,
and where a returned code comes from. -/
theorem main_loop_protocol (K : kx_consts) :
    ∀ (inputs : List (Int × menu_env)) (p : params_t) (lg : log_t) (tr0 : List loop_event),
    ∃ (body : List loop_event) (n : Nat),
      (main_loop K inputs p lg tr0).2.2.2 = tr0 ++ body ∧
      n ≤ inputs.length ∧
      dispatched body
        = ((inputs.take n).map Prod.fst).filter (fun a => decide (a ≠ K.A_NONE)) ∧
      ((main_loop K inputs p lg tr0).1 = loop_result.waiting → n = inputs.length) ∧
      rounds_ok p.context (decide ((main_loop K inputs p lg tr0).1 ≠ loop_result.waiting))
        body = true ∧
      (∀ rc, (main_loop K inputs p lg tr0).1 = loop_result.returned rc →
        ∃ pre a E post rc1 p1,
          inputs = pre ++ (a, E) :: post ∧ n = pre.length + 1 ∧ a ≠ K.A_NONE ∧
          (main_loop K pre p lg tr0).1 = loop_result.waiting ∧
          (handle K E (main_loop K pre p lg tr0).2.1 (main_loop K pre p lg tr0).2.2.1 a).1
            = handler_result.ret rc1 p1 ∧
          (main_loop K inputs p lg tr0).2.1 = p1 ∧
          ((rc1 < 0 ∧ rc = rc1) ∨
            (rc1 = 0 ∧ current_id p1.menu = some rc ∧
              (ids_nonneg p.menu → 0 ≤ K.A_DEVICES → 0 ≤ rc)))) := by
  intro inputs
  induction inputs with
  | nil =>
    intro p lg tr0
    refine ⟨[], 0, ?_, Nat.le_refl _, ?_, ?_, ?_, ?_⟩
    · simp [main_loop]
    · simp [dispatched]
    · intro _
      rfl
    · simp [main_loop, rounds_ok]
    · intro rc h
      simp [main_loop] at h
  | cons x rest ih =>
    intro p lg tr0
    obtain ⟨a, E⟩ := x
    by_cases ha : a = K.A_NONE
    · subst ha
      obtain ⟨body, n, h1, h2, h3, h4, h5, h6⟩ := ih p lg tr0
      rw [main_loop_none]
      refine ⟨body, n + 1, h1, ?_, ?_, ?_, h5, ?_⟩
      · simp only [List.length_cons]
        omega
      · simp [List.take_succ_cons, h3]
      · intro hw
        simp only [List.length_cons]
        rw [h4 hw]
      · intro rc hr
        obtain ⟨pre, a, E2, post, rc1, p1, e1, e2, e3, e4, e5, e6, e7⟩ := h6 rc hr
        refine ⟨(K.A_NONE, E) :: pre, a, E2, post, rc1, p1, ?_, ?_, e3, ?_, ?_, e6, e7⟩
        · rw [e1]
          rfl
        · simp only [List.length_cons]
          omega
        · rw [main_loop_none]
          exact e4
        · rw [main_loop_none]
          exact e5
    · have hstep := main_loop_step K a E rest p lg tr0 ha
      have hfilter : ∀ k, ((((a, E) :: rest).take (k + 1)).map Prod.fst).filter
          (fun a => decide (a ≠ K.A_NONE))
          = a :: ((rest.take k).map Prod.fst).filter (fun a => decide (a ≠ K.A_NONE)) := by
        intro k
        simp [List.take_succ_cons, ha]
      have hnil : (main_loop K [] p lg tr0) = (loop_result.waiting, p, lg, tr0) := by
        simp [main_loop]
      cases hh : (handle K E p lg a).1 with
      | undefined =>
        rw [hh] at hstep
        simp only at hstep
        rw [hstep]
        refine ⟨[loop_event.dispatch p.context a], 1, rfl, ?_, ?_, ?_, ?_, ?_⟩
        · simp
        · rw [hfilter 0]
          simp [dispatched]
        · intro hw
          simp at hw
        · simp [rounds_ok]
        · intro rc hr
          simp at hr
      | halted =>
        rw [hh] at hstep
        simp only at hstep
        rw [hstep]
        refine ⟨[loop_event.dispatch p.context a], 1, rfl, ?_, ?_, ?_, ?_, ?_⟩
        · simp
        · rw [hfilter 0]
          simp [dispatched]
        · intro hw
          simp at hw
        · simp [rounds_ok]
        · intro rc hr
          simp at hr
      | ret rc1 p1 =>
        rw [hh] at hstep
        simp only at hstep
        by_cases hpos : rc1 > 0
        · rw [if_pos hpos] at hstep
          obtain ⟨body, n, h1, h2, h3, h4, h5, h6⟩ :=
            ih p1 (handle K E p lg a).2
              (tr0 ++ [loop_event.dispatch p.context a] ++ [loop_event.draw p1.context])
          rw [hstep]
          refine ⟨loop_event.dispatch p.context a :: loop_event.draw p1.context :: body,
            n + 1, ?_, ?_, ?_, ?_, ?_, ?_⟩
          · rw [h1]
            simp
          · simp only [List.length_cons]
            omega
          · rw [hfilter n, ← h3]
            simp [dispatched]
          · intro hw
            simp only [List.length_cons]
            rw [h4 hw]
          · simp only [rounds_ok, decide_True, Bool.true_and]
            exact h5
          · intro rc hr
            obtain ⟨pre, a2, E2, post, rc2, p2, e1, e2, e3, e4, e5, e6, e7⟩ := h6 rc hr
            have hpre : main_loop K ((a, E) :: pre) p lg tr0
                = main_loop K pre p1 (handle K E p lg a).2
                    (tr0 ++ [loop_event.dispatch p.context a]
                      ++ [loop_event.draw p1.context]) := by
              rw [main_loop_step K a E pre p lg tr0 ha, hh]
              simp only
              rw [if_pos hpos]
            refine ⟨(a, E) :: pre, a2, E2, post, rc2, p2, ?_, ?_, e3, ?_, ?_, e6, ?_⟩
            · rw [e1]
              rfl
            · simp only [List.length_cons]
              omega
            · rw [hpre]
              exact e4
            · rw [hpre]
              exact e5
            · rcases e7 with e7 | ⟨e7, e8, e9⟩
              · exact Or.inl e7
              · refine Or.inr ⟨e7, e8, ?_⟩
                intro hid hA
                exact e9 (handle_ids K E p lg a rc1 p1 hA hid hh) hA
        · rw [if_neg hpos] at hstep
          by_cases hzero : rc1 = 0
          · rw [if_pos hzero] at hstep
            cases hc : current_id p1.menu with
            | none =>
              rw [hc] at hstep
              simp only at hstep
              rw [hstep]
              refine ⟨[loop_event.dispatch p.context a], 1, rfl, ?_, ?_, ?_, ?_, ?_⟩
              · simp
              · rw [hfilter 0]
                simp [dispatched]
              · intro hw
                simp at hw
              · simp [rounds_ok]
              · intro rc hr
                simp at hr
            | some id =>
              rw [hc] at hstep
              simp only at hstep
              rw [hstep]
              refine ⟨[loop_event.dispatch p.context a], 1, rfl, ?_, ?_, ?_, ?_, ?_⟩
              · simp
              · rw [hfilter 0]
                simp [dispatched]
              · intro hw
                simp at hw
              · simp [rounds_ok]
              · intro rc hr
                simp only [loop_result.returned.injEq] at hr
                subst hr
                refine ⟨[], a, E, rest, rc1, p1, rfl, rfl, ha, ?_, ?_, rfl, ?_⟩
                · rw [hnil]
                · rw [hnil]
                  exact hh
                · refine Or.inr ⟨hzero, hc, ?_⟩
                  intro hid hA
                  exact current_id_nonneg p1.menu id
                    (handle_ids K E p lg a rc1 p1 hA hid hh) hc
          · rw [if_neg hzero] at hstep
            rw [hstep]
            refine ⟨[loop_event.dispatch p.context a], 1, rfl, ?_, ?_, ?_, ?_, ?_⟩
            · simp
            · rw [hfilter 0]
              simp [dispatched]
            · intro hw
              simp at hw
            · simp [rounds_ok]
            · intro rc hr
              simp only [loop_result.returned.injEq] at hr
              subst hr
              refine ⟨[], a, E, rest, rc1, p1, rfl, rfl, ha, ?_, ?_, rfl, ?_⟩
              · rw [hnil]
              · rw [hnil]
                exact hh
              · refine Or.inl ⟨?_, rfl⟩
                omega


/-- The loop run on a sequence whose first part leaves it waiting goes on
with the rest from the state the first part left. -/
theorem main_loop_append (K : kx_consts) :
    ∀ (pre rest : List (Int × menu_env)) (p : params_t) (lg : log_t) (tr : List loop_event),
      (main_loop K pre p lg tr).1 = loop_result.waiting →
      main_loop K (pre ++ rest) p lg tr
        = main_loop K rest (main_loop K pre p lg tr).2.1 (main_loop K pre p lg tr).2.2.1
            (main_loop K pre p lg tr).2.2.2 := by
  intro pre
  induction pre with
  | nil =>
    intro rest p lg tr _
    simp [main_loop]
  | cons x pre ih =>
    intro rest p lg tr hw
    obtain ⟨a, E⟩ := x
    by_cases ha : a = K.A_NONE
    · subst ha
      rw [List.cons_append, main_loop_none, main_loop_none]
      rw [main_loop_none] at hw
      exact ih rest p lg tr hw
    · rw [List.cons_append, main_loop_step K a E (pre ++ rest) p lg tr ha,
        main_loop_step K a E pre p lg tr ha]
      rw [main_loop_step K a E pre p lg tr ha] at hw
      cases hh : (handle K E p lg a).1 with
      | undefined =>
        rw [hh] at hw
        simp at hw
      | halted =>
        rw [hh] at hw
        simp at hw
      | ret rc1 p1 =>
        rw [hh] at hw
        simp only at hw ⊢
        by_cases hpos : rc1 > 0
        · rw [if_pos hpos] at hw
          rw [if_pos hpos, if_pos hpos]
          exact ih rest p1 _ _ hw
        · rw [if_neg hpos] at hw
          by_cases hzero : rc1 = 0
          · rw [if_pos hzero] at hw
            cases hc : current_id p1.menu with
            | none =>
              rw [hc] at hw
              simp at hw
            | some id =>
              rw [hc] at hw
              simp at hw
          · rw [if_neg hzero] at hw
            simp at hw

/-- C11: for every finite sequence of actions, `do_main_loop` starts with the
Menu context (it draws it, and the first action goes to its handler); the
actions it hands to a handler are, in order and each once, the actions other
than `A_NONE` among those it has taken (`A_NONE` is never handed over);
every handler call goes to the active context, and each call but the one the
loop stops on is followed by exactly one drawing, of the context then
active, while the call it stops on is followed by none; a returned code comes
from the first action whose outcome is not "continue" (the loop run on the
actions before it is still waiting): it is that negative outcome for an
error, and for "selected" it is the id of the current item of the current
level, which is not negative when no item id of the menu and `A_DEVICES` are
negative. Conversely, at every action reached with the loop still running:
`A_NONE` changes nothing; an action whose handler answers "continue" is
followed by one drawing of the active context and the loop goes on; an
action whose handler answers with an error stops the loop, which returns
that negative code without drawing; and an action whose handler answers
"selected" stops the loop, which returns the id of the current menu item
without drawing. The handler of the Menu context is `process_ctx_menu`, that
of the text view `process_ctx_textview`, and the id returned is that of the
item at the current position of the current level. -/
theorem do_main_loop_protocol (K : kx_consts) (inputs : List (Int × menu_env))
    (params : params_t) (lg : log_t) :
    do_main_loop K [] params lg
      = (loop_result.waiting, { params with context := kx_context.KX_CTX_MENU }, lg,
          [loop_event.draw kx_context.KX_CTX_MENU]) ∧
    (∀ (E : menu_env) (p : params_t) (l : log_t) (a : Int),
      (p.context = kx_context.KX_CTX_MENU →
        handle K E p l a = (process_ctx_menu K E p a, l)) ∧
      (p.context = kx_context.KX_CTX_TEXTVIEW →
        handle K E p l a
          = (handler_result.ret (process_ctx_textview K p l a).1
              (process_ctx_textview K p l a).2.1, (process_ctx_textview K p l a).2.2))) ∧
    (∀ (m : kx_menu) (id : Int), current_id m = some id ↔
      ∃ r mi, m.current = some r ∧
        (m.level r).list[(m.level r).current_no]? = some mi ∧ mi.id = id) ∧
    (∃ (body : List loop_event) (n : Nat),
      (do_main_loop K inputs params lg).2.2.2
        = loop_event.draw kx_context.KX_CTX_MENU :: body ∧
      n ≤ inputs.length ∧
      dispatched body
        = ((inputs.take n).map Prod.fst).filter (fun a => decide (a ≠ K.A_NONE)) ∧
      K.A_NONE ∉ dispatched body ∧
      ((do_main_loop K inputs params lg).1 = loop_result.waiting → n = inputs.length) ∧
      rounds_ok kx_context.KX_CTX_MENU
        (decide ((do_main_loop K inputs params lg).1 ≠ loop_result.waiting)) body = true ∧
      (∀ rc, (do_main_loop K inputs params lg).1 = loop_result.returned rc →
        ∃ pre a E post rc1 p1,
          inputs = pre ++ (a, E) :: post ∧ n = pre.length + 1 ∧ a ≠ K.A_NONE ∧
          (do_main_loop K pre params lg).1 = loop_result.waiting ∧
          (handle K E (do_main_loop K pre params lg).2.1
            (do_main_loop K pre params lg).2.2.1 a).1 = handler_result.ret rc1 p1 ∧
          (do_main_loop K inputs params lg).2.1 = p1 ∧
          ((rc1 < 0 ∧ rc = rc1) ∨
            (rc1 = 0 ∧ current_id p1.menu = some rc ∧
              (ids_nonneg params.menu → 0 ≤ K.A_DEVICES → 0 ≤ rc))))) ∧
    (∀ pre a E post, inputs = pre ++ (a, E) :: post →
      (do_main_loop K pre params lg).1 = loop_result.waiting →
      (a = K.A_NONE →
        do_main_loop K (pre ++ [(a, E)]) params lg = do_main_loop K pre params lg) ∧
      (a ≠ K.A_NONE →
        ∀ rc1 p1,
          (handle K E (do_main_loop K pre params lg).2.1
            (do_main_loop K pre params lg).2.2.1 a).1 = handler_result.ret rc1 p1 →
          (rc1 > 0 →
            do_main_loop K (pre ++ [(a, E)]) params lg
              = (loop_result.waiting, p1,
                  (handle K E (do_main_loop K pre params lg).2.1
                    (do_main_loop K pre params lg).2.2.1 a).2,
                  (do_main_loop K pre params lg).2.2.2 ++
                    [loop_event.dispatch (do_main_loop K pre params lg).2.1.context a,
                      loop_event.draw p1.context])) ∧
          (rc1 < 0 →
            do_main_loop K inputs params lg
              = (loop_result.returned rc1, p1,
                  (handle K E (do_main_loop K pre params lg).2.1
                    (do_main_loop K pre params lg).2.2.1 a).2,
                  (do_main_loop K pre params lg).2.2.2 ++
                    [loop_event.dispatch (do_main_loop K pre params lg).2.1.context a])) ∧
          (rc1 = 0 → ∀ id, current_id p1.menu = some id →
            do_main_loop K inputs params lg
              = (loop_result.returned id, p1,
                  (handle K E (do_main_loop K pre params lg).2.1
                    (do_main_loop K pre params lg).2.2.1 a).2,
                  (do_main_loop K pre params lg).2.2.2 ++
                    [loop_event.dispatch (do_main_loop K pre params lg).2.1.context a])))) := by
  refine ⟨by simp [do_main_loop, main_loop], ?_, ?_, ?_, ?_⟩
  · intro E p l a
    constructor
    · intro hc
      simp [handle, hc]
    · intro hc
      simp [handle, hc]
  · intro m id
    unfold current_id
    cases hc : m.current with
    | none => simp
    | some r =>
      cases hi : (m.level r).list[(m.level r).current_no]? with
      | none => simp [kx_menu_level.current, hi]
      | some mi => simp [kx_menu_level.current, hi]
  · obtain ⟨body, n, h1, h2, h3, h4, h5, h6⟩ :=
      main_loop_protocol K inputs { params with context := kx_context.KX_CTX_MENU } lg
        [loop_event.draw kx_context.KX_CTX_MENU]
    refine ⟨body, n, h1, h2, h3, ?_, h4, h5, h6⟩
    rw [h3]
    intro hmem
    have := (List.mem_filter.mp hmem).2
    simp at this
  · intro pre a E post hin hw
    have happ : ∀ rest, do_main_loop K (pre ++ rest) params lg
        = main_loop K rest (do_main_loop K pre params lg).2.1
            (do_main_loop K pre params lg).2.2.1 (do_main_loop K pre params lg).2.2.2 := by
      intro rest
      exact main_loop_append K pre rest { params with context := kx_context.KX_CTX_MENU } lg
        [loop_event.draw kx_context.KX_CTX_MENU] hw
    constructor
    · intro ha
      subst ha
      rw [happ, main_loop_none]
      simp only [main_loop]
      rw [← hw]
    · intro ha rc1 p1 hh
      refine ⟨?_, ?_, ?_⟩
      · intro hpos
        rw [happ, main_loop_step K a E [] _ _ _ ha, hh]
        simp only
        rw [if_pos hpos]
        simp [main_loop]
      · intro hneg
        rw [hin, happ, main_loop_step K a E post _ _ _ ha, hh]
        simp only
        rw [if_neg (by omega), if_neg (by omega)]
      · intro hzero id hc
        rw [hin, happ, main_loop_step K a E post _ _ _ ha, hh]
        simp only
        rw [if_neg (by omega), if_pos hzero, hc]

/-- Sample for C11: on the menu with one device entry, after `A_NONE` and
`A_DOWN` the loop is still running, and `A_SELECT`, answered with
"selected", makes it return the id of the device entry with no further
drawing. -/
theorem do_main_loop_protocol_witness :
    do_main_loop sample_consts
        [(sample_consts.A_NONE, sample_env), (sample_consts.A_DOWN, sample_env),
          (sample_consts.A_SELECT, sample_env)]
        params_one_device { current_line_no := 0, rows_fill := 0 }
      = (loop_result.returned 100,
          { params_one_device with
            menu := { params_one_device.menu with
              top := { params_one_device.menu.top with current_no := 1 } } },
          { current_line_no := 0, rows_fill := 0 },
          [loop_event.draw kx_context.KX_CTX_MENU,
            loop_event.dispatch kx_context.KX_CTX_MENU sample_consts.A_DOWN,
            loop_event.draw kx_context.KX_CTX_MENU,
            loop_event.dispatch kx_context.KX_CTX_MENU sample_consts.A_SELECT]) :=
  ((((do_main_loop_protocol sample_consts
        [(sample_consts.A_NONE, sample_env), (sample_consts.A_DOWN, sample_env),
          (sample_consts.A_SELECT, sample_env)]
        params_one_device { current_line_no := 0, rows_fill := 0 }).2.2.2.2
      [(sample_consts.A_NONE, sample_env), (sample_consts.A_DOWN, sample_env)]
      sample_consts.A_SELECT sample_env [] rfl
      (by set_option maxRecDepth 100000 in decide)).2
    (by decide) 0
    { params_one_device with
      menu := { params_one_device.menu with
        top := { params_one_device.menu.top with current_no := 1 } } }
    (by set_option maxRecDepth 100000 in decide)).2.2 rfl 100
    (by set_option maxRecDepth 100000 in decide)).trans
    (by set_option maxRecDepth 100000 in decide)

/-- A run of the loop on the menu with one device entry: `A_NONE` is passed
over, `A_DOWN` moves to the device entry and is followed by a drawing, and
`A_SELECT` ends the loop, which returns the id of the device entry without
drawing again. -/
theorem do_main_loop_sample_run :
    do_main_loop sample_consts
        [(sample_consts.A_NONE, sample_env), (sample_consts.A_DOWN, sample_env),
          (sample_consts.A_SELECT, sample_env)]
        params_one_device { current_line_no := 0, rows_fill := 0 }
      = (loop_result.returned 100,
          { params_one_device with
            menu := { params_one_device.menu with
              top := { params_one_device.menu.top with current_no := 1 } } },
          { current_line_no := 0, rows_fill := 0 },
          [loop_event.draw kx_context.KX_CTX_MENU,
            loop_event.dispatch kx_context.KX_CTX_MENU sample_consts.A_DOWN,
            loop_event.draw kx_context.KX_CTX_MENU,
            loop_event.dispatch kx_context.KX_CTX_MENU sample_consts.A_SELECT]) := by
  set_option maxRecDepth 100000 in decide


end Kexecboot
